import Mathlib

/-!
# Verification of the consoletest command-execution engine

Shallow embedding of the core of `consoletest` (files `consoletest/commands.py`,
`consoletest/run_commands.py`, `consoletest/consoletest.py`) and proofs about it.

The process environment (`os.environ`) is modelled as an insertion-ordered
association list, matching CPython's `os.environ` behaviour: updating an
existing key keeps its position, setting a fresh key appends it, deleting
removes it, and iteration (`os.environ.items()`) walks the list in order.
-/

namespace Consoletest

/-- The process environment: an insertion-ordered list of `(name, value)`
pairs with (by construction) at most one entry per name. -/
abbrev Env : Type := List (String × String)

/-- `os.environ.get(k, None)` / `os.environ[k]`: value of the first (unique)
entry named `k`. -/
def envGet : Env → String → Option String
  | [], _ => none
  | p :: rest, k => if p.1 = k then some p.2 else envGet rest k

/-- `k in os.environ`. -/
def envContains : Env → String → Bool
  | [], _ => false
  | p :: rest, k => p.1 = k || envContains rest k

/-- Replace the value of every entry named `k` (there is at most one) while
keeping its position, as CPython's dict assignment does for a present key. -/
def envSetInPlace : Env → String → String → Env
  | [], _, _ => []
  | p :: rest, k, v => (if p.1 = k then (k, v) else p) :: envSetInPlace rest k v

/-- `os.environ[k] = v`: update in place when the key exists, append when
it is fresh. -/
def envSet (env : Env) (k v : String) : Env :=
  if envContains env k then envSetInPlace env k v else env ++ [(k, v)]

/-- `del os.environ[k]`. -/
def envDel : Env → String → Env
  | [], _ => []
  | p :: rest, k => if p.1 = k then envDel rest k else p :: envDel rest k

/-- The keys of the environment, in order. -/
def envKeys (env : Env) : List String := List.map (·.1) env

/-!
## `pipes` (commands.py lines 221-231)

```python
def pipes(cmd):
    if not "|" in cmd:
        return [cmd]
    cmds = []
    j = 0
    for i, arg in enumerate(cmd):
        if arg == "|":
            cmds.append(cmd[j:i])
            j = i + 1
    cmds.append(cmd[j:])
    return cmds
```
-/

/-- The Python slice `cmd[j:i]`. -/
def pySlice (cmd : List String) (j i : Nat) : List String :=
  (cmd.take i).drop j

/-- The `for i, arg in enumerate(cmd)` loop of `pipes`: `remaining` is the
part of `cmd` the enumeration has not yielded yet (so `arg` is its head and
`i` its index in `cmd`), `j` is the start of the current segment and `cmds`
the segments emitted so far; the final `cmds.append(cmd[j:])` is performed
when the enumeration is exhausted. -/
def pipesLoop (cmd : List String) :
    (remaining : List String) → (i j : Nat) → (cmds : List (List String)) →
    List (List String)
  | [], _, j, cmds => cmds ++ [cmd.drop j]
  | arg :: rest, i, j, cmds =>
    if arg = "|" then
      pipesLoop cmd rest (i + 1) (i + 1) (cmds ++ [pySlice cmd j i])
    else
      pipesLoop cmd rest (i + 1) j cmds

/-- `pipes(cmd)`: split an argument vector on the `"|"` marker. -/
def pipes (cmd : List String) : List (List String) :=
  if "|" ∈ cmd then pipesLoop cmd cmd 0 0 [] else [cmd]

end Consoletest

namespace Consoletest

/-- **C6.** Splitting an argument vector on the pipe marker produces the
maximal pipe-free segments in order: `pipes ["a","b","|","c","-x","|","d"]`
equals `[["a","b"],["c","-x"],["d"]]`, and for every vector containing no
`"|"` token the result is the single-element list holding that vector. -/
theorem pipes_splits_on_pipe_marker :
    pipes ["a", "b", "|", "c", "-x", "|", "d"] = [["a", "b"], ["c", "-x"], ["d"]] ∧
      ∀ cmd : List String, "|" ∉ cmd → pipes cmd = [cmd] := by
  refine ⟨by decide, ?_⟩
  intro cmd h
  simp [pipes, h]

/-- Witness for C6: the no-pipe case evaluated at `["grep", "Hello"]`. -/
theorem pipes_splits_on_pipe_marker_witness :
    pipes ["grep", "Hello"] = [["grep", "Hello"]] :=
  pipes_splits_on_pipe_marker.2 ["grep", "Hello"] (by decide)

/-! ### `pipes` agrees with `List.splitOn "|"` -/

lemma splitOn_eq_single_of_not_mem {xs : List String} (h : "|" ∉ xs) :
    xs.splitOn "|" = [xs] := by
  unfold List.splitOn
  exact List.splitOnP_eq_single _ _ (by
    intro x hx hbeq
    exact h (eq_of_beq hbeq ▸ hx))

lemma mem_splitOnP_not {p : String → Bool} :
    ∀ {xs seg : List String}, seg ∈ xs.splitOnP p → ∀ x ∈ seg, ¬ p x := by
  intro xs
  induction xs with
  | nil =>
    intro seg hseg x hx
    simp only [List.splitOnP_nil, List.mem_singleton] at hseg
    subst hseg
    simp at hx
  | cons a tl ih =>
    intro seg hseg x hx
    rw [List.splitOnP_cons] at hseg
    by_cases hpa : p a
    · rw [if_pos hpa] at hseg
      rcases List.mem_cons.mp hseg with h | h
      · subst h; simp at hx
      · exact ih h x hx
    · rw [if_neg hpa] at hseg
      rcases hsplit : tl.splitOnP p with _ | ⟨s, ss⟩
      · exact absurd hsplit (List.splitOnP_ne_nil p tl)
      · rw [hsplit] at hseg
        simp only [List.modifyHead, List.mem_cons] at hseg
        rcases hseg with h | h
        · subst h
          rcases List.mem_cons.mp hx with h | h
          · subst h; exact hpa
          · exact ih (hsplit ▸ List.mem_cons_self s ss) x h
        · exact ih (hsplit ▸ List.mem_cons_of_mem s h) x hx

lemma mem_splitOn_not_mem {xs seg : List String} (h : seg ∈ xs.splitOn "|") :
    "|" ∉ seg := by
  intro hmem
  exact mem_splitOnP_not (by simpa [List.splitOn] using h) _ hmem (by simp)

lemma drop_eq_slice_append {cmd : List String} {i j : Nat} (hji : j ≤ i)
    (hil : i ≤ cmd.length) :
    cmd.drop j = (cmd.take i).drop j ++ cmd.drop i := by
  conv_lhs => rw [← List.take_append_drop i cmd]
  rw [List.drop_append_of_le_length]
  rw [List.length_take]
  omega

lemma pipesLoop_eq_splitOn (cmd : List String) :
    ∀ (rest : List String) (i j : Nat) (cmds : List (List String)),
      rest = cmd.drop i → j ≤ i → i ≤ cmd.length →
      "|" ∉ (cmd.take i).drop j →
      pipesLoop cmd rest i j cmds = cmds ++ (cmd.drop j).splitOn "|" := by
  intro rest
  induction rest with
  | nil =>
    intro i j cmds hrest hji hil hfree
    have hdrop : cmd.drop j = (cmd.take i).drop j := by
      rw [drop_eq_slice_append hji hil, ← hrest, List.append_nil]
    rw [pipesLoop, hdrop, splitOn_eq_single_of_not_mem hfree]
  | cons arg rest' ih =>
    intro i j cmds hrest hji hil hfree
    have hil' : i < cmd.length := by
      by_contra hc
      rw [List.drop_eq_nil_of_le (by omega)] at hrest
      exact List.noConfusion hrest
    have harg : cmd[i]? = some arg := by
      have h0 : (cmd.drop i).head? = some arg := by rw [← hrest]; rfl
      rwa [List.head?_drop] at h0
    have hrest' : rest' = cmd.drop (i + 1) := by
      have h1 : cmd.drop (i + 1) = (cmd.drop i).drop 1 := by
        rw [List.drop_drop]
      rw [h1, ← hrest]
      rfl
    have htake : (cmd.take i).length = i := by
      rw [List.length_take]; omega
    by_cases hbar : arg = "|"
    · subst hbar
      have hstep : pipesLoop cmd ("|" :: rest') i j cmds =
          pipesLoop cmd rest' (i + 1) (i + 1) (cmds ++ [pySlice cmd j i]) := by
        simp [pipesLoop]
      rw [hstep,
        ih (i + 1) (i + 1) (cmds ++ [pySlice cmd j i]) hrest' le_rfl (by omega)
          (by
            rw [List.drop_eq_nil_of_le]
            · exact List.not_mem_nil _
            · rw [List.length_take]; omega)]
      have hdecomp : cmd.drop j = (cmd.take i).drop j ++ "|" :: cmd.drop (i + 1) := by
        rw [drop_eq_slice_append hji (le_of_lt hil'), ← hrest, hrest']
      rw [hdecomp]
      have hsplit : ((cmd.take i).drop j ++ "|" :: cmd.drop (i + 1)).splitOn "|" =
          (cmd.take i).drop j :: (cmd.drop (i + 1)).splitOn "|" := by
        simp only [List.splitOn]
        exact List.splitOnP_first _ _
          (by
            intro x hx hbeq
            exact hfree (eq_of_beq hbeq ▸ hx))
          "|" (by simp) _
      rw [hsplit, pySlice]
      simp
    · have hstep : pipesLoop cmd (arg :: rest') i j cmds =
          pipesLoop cmd rest' (i + 1) j cmds := by
        simp [pipesLoop, hbar]
      rw [hstep]
      refine ih (i + 1) j cmds hrest' (by omega) (by omega) ?_
      rw [List.take_succ, harg]
      rw [List.drop_append_of_le_length (by omega)]
      intro hmem
      rcases List.mem_append.mp hmem with h | h
      · exact hfree h
      · simp only [Option.toList, List.mem_singleton] at h
        exact hbar h.symm

/-- `pipes` computes exactly `List.splitOn "|"`. -/
theorem pipes_eq_splitOn (cmd : List String) : pipes cmd = cmd.splitOn "|" := by
  unfold pipes
  split
  · have h := pipesLoop_eq_splitOn cmd cmd 0 0 []
      (by simp) le_rfl (Nat.zero_le _) (by simp)
    simpa using h
  · rw [splitOn_eq_single_of_not_mem (by assumption)]

/-- **C10.** Pipe splitting loses no tokens and invents none: interleaving
the segments returned by `pipes` with single `"|"` tokens reconstructs the
original argument vector exactly, and no returned segment contains a `"|"`
token. -/
theorem pipes_reconstructs_and_is_pipe_free (cmd : List String) :
    ["|"].intercalate (pipes cmd) = cmd ∧
      ∀ seg ∈ pipes cmd, "|" ∉ seg := by
  rw [pipes_eq_splitOn]
  exact ⟨List.intercalate_splitOn cmd "|", fun seg hseg => mem_splitOn_not_mem hseg⟩

/-- Witness for C10: evaluated at `["a", "|", "b"]` with segment `["a"]`. -/
theorem pipes_reconstructs_and_is_pipe_free_witness :
    ["|"].intercalate (pipes ["a", "|", "b"]) = ["a", "|", "b"] ∧ "|" ∉ ["a"] :=
  ⟨(pipes_reconstructs_and_is_pipe_free ["a", "|", "b"]).1,
    (pipes_reconstructs_and_is_pipe_free ["a", "|", "b"]).2 ["a"] (by decide)⟩

/-!
## `tmpenv` (run_commands.py lines 16-38)

```python
@contextlib.contextmanager
def tmpenv(cmd: List[str]) -> List[str]:
    oldvars = {}
    tmpvars = {}
    for var in cmd:
        if "=" not in var:
            break
        cmd.pop(0)
        key, value = var.split("=", maxsplit=1)
        tmpvars[key] = value
        if key in os.environ:
            oldvars[key] = os.environ[key]
        os.environ[key] = value
    try:
        yield cmd
    finally:
        for key in tmpvars.keys():
            del os.environ[key]
        for key, value in oldvars.items():
            os.environ[key] = value
```

Note that `for var in cmd` iterates by index over the list that
`cmd.pop(0)` is shrinking at the same time, so iteration step `t` reads
index `t` of a list that has already lost its first `t` elements.  The
loop below makes that explicit: `cmd` is the current (already popped)
list and `i` the iterator's index into it.
-/

/-- `"=" in var`: membership of the one-character substring `"="`. -/
def pyContainsEq (s : String) : Bool :=
  s.data.contains '='

/-- Helper for `pySplitEq1`: split a character list at its first `'='`. -/
def splitEq1 : List Char → Option (List Char × List Char)
  | [] => none
  | c :: cs =>
    if c = '=' then some ([], cs)
    else
      match splitEq1 cs with
      | some (k, v) => some (c :: k, v)
      | none => none

/-- `var.split("=", maxsplit=1)` as a `(key, value)` pair (the loop only
applies it to tokens that contain `'='`, where the split succeeds). -/
def pySplitEq1 (s : String) : String × String :=
  match splitEq1 s.data with
  | some (k, v) => (String.mk k, String.mk v)
  | none => (s, "")

/-- One state of `tmpenv`'s stripping loop: the current `cmd` list, the
iterator index `i`, the process environment and the `oldvars`/`tmpvars`
dicts.  `fuel` only bounds the recursion; `fuel = cmd.length` at entry is
never exhausted because `i` grows while `cmd` shrinks. -/
def tmpenvStrip (fuel : Nat) (cmd : List String) (i : Nat)
    (env oldvars tmpvars : Env) : List String × Env × Env × Env :=
  match fuel with
  | 0 => (cmd, env, oldvars, tmpvars)
  | fuel + 1 =>
    if h : i < cmd.length then
      let var := cmd.get ⟨i, h⟩
      if pyContainsEq var then
        let kv := pySplitEq1 var
        let tmpvars' := envSet tmpvars kv.1 kv.2
        let oldvars' := match envGet env kv.1 with
          | some old => envSet oldvars kv.1 old
          | none => oldvars
        tmpenvStrip fuel cmd.tail (i + 1) (envSet env kv.1 kv.2) oldvars' tmpvars'
      else (cmd, env, oldvars, tmpvars)
    else (cmd, env, oldvars, tmpvars)

/-- Entering the `tmpenv` context manager: the stripping loop, started on
the full argument vector with an empty `oldvars` and `tmpvars`.  Returns
the yielded `cmd` and the environment/dicts at the `yield`. -/
def tmpenvEnter (cmd : List String) (env : Env) : List String × Env × Env × Env :=
  tmpenvStrip cmd.length cmd 0 env [] []

/-- The `finally` block of `tmpenv`: delete every `tmpvars` key from the
environment, then write back every `oldvars` entry. -/
def tmpenvExit (env oldvars tmpvars : Env) : Env :=
  let env1 := List.foldl (fun e (p : String × String) => envDel e p.1) env tmpvars
  List.foldl (fun e (p : String × String) => envSet e p.1 p.2) env1 oldvars

/-- The whole `tmpenv` context manager around an (environment-preserving)
body: strip, then restore. -/
def tmpenvRoundtrip (cmd : List String) (env : Env) : Env :=
  let r := tmpenvEnter cmd env
  tmpenvExit r.2.1 r.2.2.1 r.2.2.2

/-- **C2 (evidence of the code bug).** On the stage `["A=1","B=2","prog"]`
run in an empty environment, the stripping loop of `tmpenv` removes only
the first assignment token: the stage is yielded as `["B=2","prog"]` (the
token `B=2` is left in the argument vector) and only `A=1` is applied to
the environment — `B` is not set — because `for var in cmd` iterates by
index over the same list that `cmd.pop(0)` is shrinking, so every second
leading assignment token is skipped.  The claim instead requires the stage
to run as `["prog"]` with both `A` and `B` set. -/
theorem tmpenv_strips_only_alternate_assignments :
    tmpenvEnter ["A=1", "B=2", "prog"] [] =
      (["B=2", "prog"], [("A", "1")], [], [("A", "1")]) ∧
      envGet [("A", "1")] "B" = none := by
  decide

/-- **C8 (counterexample).** The stage `["A=1","B=2","A=3","prog"]` carries
inline `KEY=VALUE` prefixes, yet after the pipeline completes the variable
`A` — unset before the pipeline — is left set to `"1"`: the loop processes
`A=1` and then `A=3`, records `oldvars["A"] = "1"` (a value `tmpenv` itself
wrote, not a pre-pipeline value), and the `finally` block restores it. -/
theorem tmpenv_roundtrip_leaks_on_duplicate_keys :
    envGet (tmpenvRoundtrip ["A=1", "B=2", "A=3", "prog"] []) "A" = some "1" ∧
      envGet ([] : Env) "A" = none := by
  decide

/-! ### Pointwise behaviour of the environment operations -/

lemma envGet_envSetInPlace (e : Env) (k v k' : String) :
    envGet (envSetInPlace e k v) k' =
      if k' = k then (if envContains e k then some v else none)
      else envGet e k' := by
  induction e with
  | nil => simp [envSetInPlace, envGet, envContains]
  | cons p rest ih =>
    by_cases hp : p.1 = k
    · by_cases hk : k' = k
      · subst hk
        simp [envSetInPlace, envGet, envContains, hp]
      · simp only [envSetInPlace, if_pos hp, envGet, envContains, if_neg hk]
        rw [if_neg (by simpa using Ne.symm hk), ih, if_neg hk,
          if_neg (fun hcontra => hk (hcontra.symm.trans hp) : ¬p.1 = k')]
    · by_cases hpk' : p.1 = k'
      · have hk : ¬k' = k := fun hcontra => hp (hpk'.trans hcontra)
        simp only [envSetInPlace, if_neg hp, envGet, if_pos hpk', if_neg hk]
      · simp only [envSetInPlace, if_neg hp, envGet, if_neg hpk', envContains]
        rw [ih]
        rcases eq_or_ne k' k with hk | hk
        · subst hk
          simp [hp]
        · simp [hk]

lemma envGet_append (a b : Env) (k : String) :
    envGet (a ++ b) k =
      match envGet a k with
      | some v => some v
      | none => envGet b k := by
  induction a with
  | nil => simp [envGet]
  | cons p rest ih =>
    by_cases hp : p.1 = k
    · simp [envGet, hp]
    · simp [envGet, hp, ih]

lemma envContains_eq_isSome (e : Env) (k : String) :
    envContains e k = (envGet e k).isSome := by
  induction e with
  | nil => simp [envContains, envGet]
  | cons p rest ih =>
    by_cases hp : p.1 = k
    · simp [envContains, envGet, hp]
    · simp [envContains, envGet, hp, ih]

lemma envGet_envSet (e : Env) (k v k' : String) :
    envGet (envSet e k v) k' = if k' = k then some v else envGet e k' := by
  unfold envSet
  by_cases hc : envContains e k
  · rw [if_pos hc, envGet_envSetInPlace, if_pos hc]
  · rw [if_neg hc, envGet_append]
    have hnone : envGet e k = none := by
      rw [envContains_eq_isSome] at hc
      exact Option.not_isSome_iff_eq_none.mp (by simpa using hc)
    rcases eq_or_ne k' k with hk | hk
    · subst hk
      rw [hnone]
      simp [envGet]
    · rcases hge : envGet e k' with _ | v'
      · simp [envGet, hk, Ne.symm hk]
      · simp [hk]

lemma envGet_envDel (e : Env) (k k' : String) :
    envGet (envDel e k) k' = if k' = k then none else envGet e k' := by
  induction e with
  | nil => simp [envDel, envGet]
  | cons p rest ih =>
    by_cases hp : p.1 = k
    · rw [envDel, if_pos hp, ih]
      rcases eq_or_ne k' k with hk | hk
      · simp [hk]
      · rw [if_neg hk, if_neg hk, envGet,
          if_neg (fun hcontra => hk (hcontra.symm.trans hp) : ¬p.1 = k')]
    · rw [envDel, if_neg hp]
      by_cases hpk' : p.1 = k'
      · have hk : ¬k' = k := fun hcontra => hp (hpk'.trans hcontra)
        rw [envGet, if_pos hpk', if_neg hk, envGet, if_pos hpk']
      · rw [envGet, if_neg hpk', ih]
        rcases eq_or_ne k' k with hk | hk
        · simp [hk]
        · rw [if_neg hk, if_neg hk, envGet, if_neg hpk']

lemma envGet_eq_none_iff_not_mem_keys (e : Env) (k : String) :
    envGet e k = none ↔ k ∉ envKeys e := by
  induction e with
  | nil => simp [envGet, envKeys]
  | cons p rest ih =>
    by_cases hp : p.1 = k
    · simp [envGet, envKeys, hp]
    · simp [envGet, envKeys, hp, ih, Ne.symm hp]

lemma envKeys_envSetInPlace (e : Env) (k v : String) :
    envKeys (envSetInPlace e k v) = envKeys e := by
  induction e with
  | nil => rfl
  | cons p rest ih =>
    by_cases hp : p.1 = k
    · simp only [envSetInPlace, if_pos hp, envKeys, List.map_cons]
      rw [hp]
      exact congrArg _ ih
    · simp only [envSetInPlace, if_neg hp, envKeys, List.map_cons]
      exact congrArg _ ih

lemma envKeys_envSet (e : Env) (k v : String) :
    envKeys (envSet e k v) =
      if envContains e k then envKeys e else envKeys e ++ [k] := by
  unfold envSet
  by_cases hc : envContains e k
  · simp [hc, envKeys_envSetInPlace]
  · simp [hc, envKeys]

lemma envGet_foldl_del (tmp : Env) (e : Env) (k : String) :
    envGet (List.foldl (fun acc (p : String × String) => envDel acc p.1) e tmp) k =
      if envContains tmp k then none else envGet e k := by
  induction tmp generalizing e with
  | nil => simp [envContains]
  | cons p rest ih =>
    rw [List.foldl_cons, ih, envGet_envDel]
    by_cases hp : p.1 = k
    · have h1 : envContains (p :: rest) k = true := by simp [envContains, hp]
      rw [h1]
      rcases Bool.eq_false_or_eq_true (envContains rest k) with hcr | hcr <;>
        simp [hcr, hp.symm]
    · have hk : ¬k = p.1 := fun hcontra => hp hcontra.symm
      have h1 : envContains (p :: rest) k = envContains rest k := by
        simp [envContains, hp]
      rw [h1]
      rcases Bool.eq_false_or_eq_true (envContains rest k) with hcr | hcr <;>
        simp [hcr, hk]

lemma envGet_foldl_set (old : Env) (e : Env) (k : String)
    (hnd : (envKeys old).Nodup) :
    envGet (List.foldl (fun acc (p : String × String) => envSet acc p.1 p.2) e old) k =
      match envGet old k with
      | some v => some v
      | none => envGet e k := by
  induction old generalizing e with
  | nil => simp [envGet]
  | cons p rest ih =>
    have hnd2 : p.1 ∉ envKeys rest ∧ (envKeys rest).Nodup := List.nodup_cons.mp hnd
    have hnd' : (envKeys rest).Nodup := hnd2.2
    by_cases hp : p.1 = k
    · have hkmem : k ∉ envKeys rest := hp ▸ hnd2.1
      have hrest : envGet rest k = none :=
        (envGet_eq_none_iff_not_mem_keys rest k).mpr hkmem
      simp only [List.foldl_cons, ih _ hnd', hrest, envGet, if_pos hp]
      rw [envGet_envSet, if_pos hp.symm]
    · simp only [List.foldl_cons, ih _ hnd', envGet, if_neg hp]
      rcases hr : envGet rest k with _ | v
      · rw [envGet_envSet, if_neg (fun hcontra => hp hcontra.symm)]
      · rfl

/-- Pointwise description of `tmpenv`'s `finally` block. -/
lemma envGet_tmpenvExit (env old tmp : Env) (k : String)
    (hnd : (envKeys old).Nodup) :
    envGet (tmpenvExit env old tmp) k =
      match envGet old k with
      | some v => some v
      | none => if envContains tmp k then none else envGet env k := by
  unfold tmpenvExit
  rw [envGet_foldl_set _ _ _ hnd, envGet_foldl_del]

/-! ### Restoration holds when the processed keys are pairwise distinct -/

/-- The keys of the `KEY=VALUE`-shaped (that is, `'='`-containing) tokens of
an argument vector, in order. -/
def eqTokenKeys (cmd : List String) : List String :=
  (cmd.filter pyContainsEq).map (fun v => (pySplitEq1 v).1)

lemma tmpenvStrip_restores (fuel : Nat) :
    ∀ (cmd : List String) (i : Nat) (env old tmp env0 : Env),
      (envKeys old).Nodup →
      (∀ j, (envGet old j).isSome = true → (envGet tmp j).isSome = true) →
      (∀ j, envGet (tmpenvExit env old tmp) j = envGet env0 j) →
      (eqTokenKeys (cmd.drop i)).Nodup →
      (∀ j ∈ eqTokenKeys (cmd.drop i), envGet tmp j = none) →
      ∀ j,
        envGet
          (tmpenvExit (tmpenvStrip fuel cmd i env old tmp).2.1
            (tmpenvStrip fuel cmd i env old tmp).2.2.1
            (tmpenvStrip fuel cmd i env old tmp).2.2.2) j = envGet env0 j := by
  induction fuel with
  | zero =>
    intro cmd i env old tmp env0 _ _ hexit _ _ j
    simpa [tmpenvStrip] using hexit j
  | succ fuel ih =>
    intro cmd i env old tmp env0 hnd hsub hexit hkeysnd hfresh j
    by_cases hi : i < cmd.length
    · by_cases hceq : pyContainsEq cmd[i]
      · -- one assignment token is processed
        have hstep : tmpenvStrip (fuel + 1) cmd i env old tmp =
            tmpenvStrip fuel cmd.tail (i + 1)
              (envSet env (pySplitEq1 cmd[i]).1 (pySplitEq1 cmd[i]).2)
              (match envGet env (pySplitEq1 cmd[i]).1 with
               | some old₁ => envSet old (pySplitEq1 cmd[i]).1 old₁
               | none => old)
              (envSet tmp (pySplitEq1 cmd[i]).1 (pySplitEq1 cmd[i]).2) := by
          rw [tmpenvStrip]
          simp [hi, hceq]
        set K := (pySplitEq1 cmd[i]).1 with hK
        set V := (pySplitEq1 cmd[i]).2 with hV
        set old' : Env := (match envGet env K with
          | some old₁ => envSet old K old₁
          | none => old) with hold'
        have hdropi : cmd.drop i = cmd[i] :: cmd.drop (i + 1) :=
          List.drop_eq_getElem_cons hi
        have hkeystep : eqTokenKeys (cmd.drop i) =
            K :: eqTokenKeys (cmd.drop (i + 1)) := by
          unfold eqTokenKeys
          rw [hdropi, List.filter_cons_of_pos hceq, List.map_cons]
        have hKtail : K ∉ eqTokenKeys (cmd.drop (i + 1)) := by
          have := hkeysnd
          rw [hkeystep] at this
          exact (List.nodup_cons.mp this).1
        have hndtail : (eqTokenKeys (cmd.drop (i + 1))).Nodup := by
          have := hkeysnd
          rw [hkeystep] at this
          exact (List.nodup_cons.mp this).2
        have hfreshK : envGet tmp K = none :=
          hfresh K (by rw [hkeystep]; exact List.mem_cons_self _ _)
        have holdK : envGet old K = none := by
          rcases hOK : envGet old K with _ | v
          · rfl
          · have := hsub K (by simp [hOK])
            rw [hfreshK] at this
            simp at this
        have hKnotinoldkeys : K ∉ envKeys old :=
          (envGet_eq_none_iff_not_mem_keys old K).mp holdK
        have hcontainsoldK : envContains old K = false := by
          rw [envContains_eq_isSome, holdK]
          rfl
        -- the new oldvars dict still has pairwise distinct keys
        have hnd' : (envKeys old').Nodup := by
          rw [hold']
          rcases envGet env K with _ | o
          · exact hnd
          · rw [envKeys_envSet, hcontainsoldK, if_neg Bool.false_ne_true]
            exact List.Nodup.append hnd (List.nodup_singleton K)
              (by simpa [List.disjoint_singleton] using hKnotinoldkeys)
        -- pointwise values of the new dicts
        have hold'K : envGet old' K = envGet env K := by
          rw [hold']
          rcases envGet env K with _ | o
          · exact holdK
          · rw [envGet_envSet, if_pos rfl]
        have hold'ne : ∀ j, j ≠ K → envGet old' j = envGet old j := by
          intro j hj
          rw [hold']
          rcases envGet env K with _ | o
          · rfl
          · rw [envGet_envSet, if_neg hj]
        have htmp' : ∀ j, envGet (envSet tmp K V) j =
            if j = K then some V else envGet tmp j := fun j =>
          envGet_envSet tmp K V j
        -- the invariant is preserved by the step
        have hsub' : ∀ j, (envGet old' j).isSome = true →
            (envGet (envSet tmp K V) j).isSome = true := by
          intro j hj
          rcases eq_or_ne j K with hjK | hjK
          · subst hjK
            rw [htmp', if_pos rfl]
            rfl
          · rw [htmp', if_neg hjK]
            rw [hold'ne j hjK] at hj
            exact hsub j hj
        have hexit' : ∀ j,
            envGet (tmpenvExit (envSet env K V) old' (envSet tmp K V)) j =
              envGet env0 j := by
          intro j
          rw [envGet_tmpenvExit _ _ _ _ hnd']
          have hexitj := hexit j
          rw [envGet_tmpenvExit _ _ _ _ hnd] at hexitj
          rcases eq_or_ne j K with hjK | hjK
          · have holdj : envGet old j = none := by rw [hjK]; exact holdK
            rw [holdj] at hexitj
            have hcontainstmp : envContains tmp j = false := by
              rw [envContains_eq_isSome, hjK, hfreshK]
              rfl
            rw [hcontainstmp] at hexitj
            simp at hexitj
            have hold'j : envGet old' j = envGet env j := by rw [hjK]; exact hold'K
            rw [hold'j]
            have hcontains' : envContains (envSet tmp K V) j = true := by
              rw [envContains_eq_isSome, htmp', if_pos hjK]
              rfl
            rcases henvK : envGet env j with _ | o
            · rw [henvK] at hexitj
              rw [hcontains']
              simpa using hexitj
            · rw [henvK] at hexitj
              simpa using hexitj
          · rw [hold'ne j hjK]
            have hcontains' : envContains (envSet tmp K V) j = envContains tmp j := by
              rw [envContains_eq_isSome, envContains_eq_isSome, htmp', if_neg hjK]
            rw [hcontains', envGet_envSet, if_neg hjK]
            exact hexitj
        -- the remaining tokens keep distinct, still-unprocessed keys
        have hdroptail : cmd.tail.drop (i + 1) = cmd.drop (i + 2) := by
          rw [← List.drop_one, List.drop_drop]
          have h2 : 1 + (i + 1) = i + 2 := by omega
          rw [h2]
        have hsublist : List.Sublist (eqTokenKeys (cmd.drop (i + 2)))
            (eqTokenKeys (cmd.drop (i + 1))) := by
          have h1 : List.Sublist (cmd.drop (i + 2)) (cmd.drop (i + 1)) := by
            have : (cmd.drop (i + 1)).drop 1 = cmd.drop (i + 2) := by
              rw [List.drop_drop]
            rw [← this]
            exact List.drop_sublist 1 _
          exact (h1.filter pyContainsEq).map _
        have hkeysnd' : (eqTokenKeys (cmd.tail.drop (i + 1))).Nodup := by
          rw [hdroptail]
          exact hndtail.sublist hsublist
        have hfresh' : ∀ j ∈ eqTokenKeys (cmd.tail.drop (i + 1)),
            envGet (envSet tmp K V) j = none := by
          intro j hj
          rw [hdroptail] at hj
          have hjmem : j ∈ eqTokenKeys (cmd.drop (i + 1)) := hsublist.mem hj
          have hjK : j ≠ K := fun hcontra => hKtail (hcontra ▸ hjmem)
          rw [htmp', if_neg hjK]
          exact hfresh j (by rw [hkeystep]; exact List.mem_cons_of_mem _ hjmem)
        rw [hstep]
        exact ih cmd.tail (i + 1) (envSet env K V) old' (envSet tmp K V) env0
          hnd' hsub' hexit' hkeysnd' hfresh' j
      · -- a non-assignment token stops the loop
        have : tmpenvStrip (fuel + 1) cmd i env old tmp = (cmd, env, old, tmp) := by
          rw [tmpenvStrip]
          simp [hi, hceq]
        rw [this]
        exact hexit j
    · have : tmpenvStrip (fuel + 1) cmd i env old tmp = (cmd, env, old, tmp) := by
        rw [tmpenvStrip]
        simp [hi]
      rw [this]
      exact hexit j

/-- **C8 (amended).** For every pipeline stage whose `'='`-containing tokens
have pairwise-distinct keys, the variables applied by `tmpenv` are restored
to their pre-pipeline values (or removed entirely if previously unset)
after the pipeline completes: restoring after stripping is the identity on
the environment, pointwise.  (Duplicate keys among the processed tokens
break this — see the counterexample.) -/
theorem tmpenv_roundtrip_restores_of_distinct_keys (cmd : List String)
    (env : Env) (h : (eqTokenKeys cmd).Nodup) (k : String) :
    envGet (tmpenvRoundtrip cmd env) k = envGet env k := by
  unfold tmpenvRoundtrip tmpenvEnter
  exact tmpenvStrip_restores cmd.length cmd 0 env [] [] env
    (by simp [envKeys])
    (by intro j hj; simp [envGet] at hj)
    (by intro j; rfl)
    (by simpa using h)
    (by intro j _; rfl)
    k

/-- Witness for the amended C8, at stage `["A=1","B=2","prog"]` in the
environment `[("B","0")]`. -/
theorem tmpenv_roundtrip_restores_of_distinct_keys_witness :
    (eqTokenKeys ["A=1", "B=2", "prog"]).Nodup ∧
      envGet (tmpenvRoundtrip ["A=1", "B=2", "prog"] [("B", "0")]) "A" =
        envGet [("B", "0")] "A" :=
  ⟨by decide,
    tmpenv_roundtrip_restores_of_distinct_keys ["A=1", "B=2", "prog"]
      [("B", "0")] (by decide) "A"⟩

/-!
## Python exceptions raised by the engine
-/

/-- The Python exceptions that the modelled code can raise. -/
inductive PyErr where
  /-- `ValueError(msg)`. -/
  | valueError (msg : String)
  /-- `NameError`: the given name is not defined in the enclosing scopes. -/
  | nameError (name : String)
  /-- `AttributeError`: the object has no attribute of the given name. -/
  | attributeError (name : String)
  /-- `IndexError`: sequence index out of range. -/
  | indexError
  /-- `RuntimeError(msg)`. -/
  | runtimeError (msg : String)
  /-- `PipNotRunAsModule(cmd)` (commands.py). -/
  | pipNotRunAsModule (cmd : List String)
  /-- `OutputComparisionError(msg)` (commands.py). -/
  | outputComparisionError (msg : String)
  deriving DecidableEq, Repr

/-- `repr` of a Python string that needs no escaping: the text between two
single quotes. -/
def pyRepr (s : String) : String :=
  String.singleton '\x27' ++ s ++ String.singleton '\x27'

/-- `repr` of a Python list of such strings:
`"[" ++ "'a', 'b'" ++ "]"`. -/
def pyReprList (l : List String) : String :=
  "[" ++ String.intercalate ", " (List.map pyRepr l) ++ "]"

/-!
## `sub_env_vars` and `run_commands` (run_commands.py lines 7-13 and 41-119)

The OS process launch itself is abstracted by a `spawn` oracle mapping the
final argument vector and the environment active at launch time to the
process's exit code; everything else (substitution, `2>&1` stripping, the
interpreter rewrite, the `tmpenv` wrapper, and the wait/aggregate loop) is
modelled from the source.  Stream wiring (`stdin`/`stdout` plumbing between
stages) has no observable effect on the properties stated here and is not
modelled.
-/

/-- Replace every (non-overlapping, leftmost-first) occurrence of `pat`
inside `s` by `rep`, as Python's `str.replace`; `fuel` only bounds the
recursion and `fuel = s.length` is never exhausted for nonempty `pat`. -/
def replaceChars (fuel : Nat) (s pat rep : List Char) : List Char :=
  match fuel with
  | 0 => s
  | fuel + 1 =>
    match s with
    | [] => []
    | c :: cs =>
      if pat.isPrefixOf (c :: cs) then
        rep ++ replaceChars fuel ((c :: cs).drop pat.length) pat rep
      else
        c :: replaceChars fuel cs pat rep

/-- `arg.replace(check, value)`. -/
def pyReplace (arg check value : String) : String :=
  String.mk (replaceChars arg.data.length arg.data check.data value.data)

/-- `pat` occurs as a contiguous run inside `s`. -/
def listIsInfixOf (pat : List Char) : List Char → Bool
  | [] => pat.isEmpty
  | c :: tl => pat.isPrefixOf (c :: tl) || listIsInfixOf pat tl

/-- `check in arg` (substring containment). -/
def pyContainsSubstr (arg check : String) : Bool :=
  listIsInfixOf check.data arg.data

/-- Decidable equality for the results of fallible engine calls. -/
instance exceptDecEq {ε α : Type} [DecidableEq ε] [DecidableEq α] :
    DecidableEq (Except ε α) := fun a b =>
  match a, b with
  | .ok x, .ok y =>
    if h : x = y then isTrue (by rw [h])
    else isFalse (fun hc => h (by injection hc))
  | .error x, .error y =>
    if h : x = y then isTrue (by rw [h])
    else isFalse (fun hc => h (by injection hc))
  | .ok _, .error _ => isFalse (fun hc => Except.noConfusion hc)
  | .error _, .ok _ => isFalse (fun hc => Except.noConfusion hc)

/-- `sub_env_vars(cmd)`: for every environment entry, replace `$NAME` and
`${NAME}` occurrences in every token.  Both checks read the token as it was
at the start of the inner loop (`arg`), so when a token contains both
forms, the `${NAME}` replacement (computed from the original token)
overwrites the `$NAME` one — exactly as the source does. -/
def sub_env_vars (env : Env) (cmd : List String) : List String :=
  List.foldl
    (fun c (kv : String × String) =>
      List.map
        (fun arg =>
          let check1 := "$" ++ kv.1
          let check2 := "$\x7b" ++ kv.1 ++ "\x7d"
          let r1 := if pyContainsSubstr arg check1 then pyReplace arg check1 kv.2 else arg
          if pyContainsSubstr arg check2 then pyReplace arg check2 kv.2 else r1)
        c)
    cmd env

/-- The interpreter-rewrite step of `run_commands`:
`if "VIRTUAL_ENV" not in os.environ and "CONDA_PREFIX" not in os.environ and
cmd[0].startswith("python"): cmd[0] = sys.executable`
(reading `cmd[0]` of an empty stage raises `IndexError`). -/
def pythonRewrite (env : Env) (sysExecutable : String) (cmd : List String) :
    Except PyErr (List String) :=
  if envContains env "VIRTUAL_ENV" = false ∧ envContains env "CONDA_PREFIX" = false then
    match cmd with
    | [] => .error .indexError
    | c0 :: rest =>
      if "python".data.isPrefixOf c0.data then .ok (sysExecutable :: rest)
      else .ok (c0 :: rest)
  else .ok cmd

/-- The first (`Popen`) loop of `run_commands`: per stage, strip a `2>&1`
token, rewrite a bare `python` interpreter, enter `tmpenv`, spawn (the
`spawn` oracle yields the exit code observed later by `proc.wait()`), and
leave `tmpenv`.  Returns the final environment, the `procs` list (final
argv paired with exit code) and the Python variable `cmd` as the loop
leaves it: the *last* stage's stripped argv. -/
def runCommandsSpawnLoop (spawn : List String → Env → Int) (sysExecutable : String) :
    List (List String) → Env → List (List String × Int) → List String →
    Except PyErr (Env × List (List String × Int) × List String)
  | [], env, procs, lastCmd => .ok (env, procs, lastCmd)
  | cmd :: rest, env, procs, _ => do
    let cmd1 := if cmd.contains "2>&1" then cmd.erase "2>&1" else cmd
    let cmd2 ← pythonRewrite env sysExecutable cmd1
    let r := tmpenvEnter cmd2 env
    let rc := spawn r.1 r.2.1
    let env' := tmpenvExit r.2.1 r.2.2.1 r.2.2.2
    runCommandsSpawnLoop spawn sysExecutable rest env' (procs ++ [(r.1, rc)]) r.1

/-- `run_commands(cmds, ctx, ...)`.  The wait loop skips the final process
in daemon mode; each nonzero exit code appends
`f"Failed to run: {cmd!r}"` — where `cmd` is the loop-leftover variable
from the spawn loop, i.e. the *last* stage's argv, not the failing
process's own `proc.cmd`.  Returns the final environment and, in daemon
mode, the unawaited last process. -/
def run_commands (spawn : List String → Env → Int) (cmds : List (List String))
    (env : Env) (sysExecutable : String) (ignore_errors daemon : Bool) :
    Except PyErr (Env × Option (List String × Int)) := do
  let cmds' := List.map (sub_env_vars env) cmds
  let (env', procs, lastCmd) ← runCommandsSpawnLoop spawn sysExecutable cmds' env [] []
  let waited := if daemon then procs.dropLast else procs
  let errors := List.map (fun _ => "Failed to run: " ++ pyReprList lastCmd)
    (List.filter (fun p => p.2 ≠ 0) waited)
  if errors ≠ [] ∧ ignore_errors = false then
    .error (.runtimeError (String.intercalate "\n" errors))
  else
    .ok (env', if daemon then procs.getLast? else none)

/-!
## `ActivateVirtualEnvCommand` (commands.py lines 79-190)

`run` snapshots `VIRTUAL_ENV`, `VIRTUAL_ENV_DIR`, `PATH` and `PYTHONPATH`,
prepends the environment root's `bin`/`site-packages` directories, and then
follows the conda-style strategy when `CONDA_PREFIX` is present, the
virtualenv-style strategy otherwise.  `__aexit__` writes back each
snapshotted value that was not `None` (a previously-unset variable is not
deleted) and pulls the conda shell level and indexed prefixes back down.
The `post_activate` hook set of a fresh instance is empty, so `run`'s hook
loop does nothing (the module-level `register_post_activate` call at
commands.py line 194 is not reachable on an instance); the local
`python_path` variable has no effect on the environment.
-/

/-- `f"{sys.version_info.major}.{sys.version_info.minor}"` of the hosting
interpreter, fixed for the model. -/
def python_version_short : String := "3.11"

/-- Models `os.path.abspath(os.path.join(cwd, directory))` for an absolute,
normalized `cwd` and a plain relative `directory`. -/
def abspathJoin (cwd directory : String) : String :=
  cwd ++ "/" ++ directory

/-- Split a character list on a separator character (Python `str.split`). -/
def splitCharsOn (sep : Char) : List Char → List (List Char)
  | [] => [[]]
  | c :: cs =>
    if c = sep then [] :: splitCharsOn sep cs
    else
      match splitCharsOn sep cs with
      | s :: ss => (c :: s) :: ss
      | [] => [[c]]

/-- `s.split(":")`. -/
def pySplitColon (s : String) : List String :=
  List.map String.mk (splitCharsOn ':' s.data)

/-- `int(s)` for the canonical decimal strings (an optional `-` followed by
digits) that the engine stores in `CONDA_SHLVL` and prefix-variable
names. -/
def pyInt (s : String) : Int :=
  match s.data with
  | '-' :: cs => -(List.foldl (fun acc c => acc * 10 + ((c.toNat : Int) - 48)) 0 cs)
  | cs => List.foldl (fun acc c => acc * 10 + ((c.toNat : Int) - 48)) 0 cs

/-- `key.startswith("CONDA_PREFIX_")`. -/
def isCondaPrefixKey (key : String) : Bool :=
  "CONDA_PREFIX_".data.isPrefixOf key.data

/-- `int(key[len("CONDA_PREFIX_"):])`. -/
def condaPrefixIndex (key : String) : Int :=
  pyInt (String.mk (key.data.drop "CONDA_PREFIX_".data.length))

/-- The `filter(lambda i: i[0].startswith("CONDA_PREFIX_"),
list(os.environ.items()))` snapshot. -/
def condaPrefixItems (env : Env) : Env :=
  List.filter (fun p => isCondaPrefixKey p.1) env

/-- The state of one `ActivateVirtualEnvCommand` object: its directory and
the four snapshot attributes set by `run`. -/
structure ActivateVirtualEnvCommand where
  directory : String
  old_virtual_env : Option String := none
  old_virtual_env_dir : Option String := none
  old_path : Option String := none
  old_pythonpath : Option String := none
  deriving DecidableEq, Repr

/-- `ActivateVirtualEnvCommand.run(ctx)` (commands.py lines 112-161):
snapshot, prepend `bin` to `PATH` and append `site-packages` to
`PYTHONPATH`, then activate conda-style (bump indexed prefixes up, raise
the shell level, install the new prefix) or virtualenv-style (set
`VIRTUAL_ENV`/`VIRTUAL_ENV_DIR`).  Returns the updated object and
environment. -/
def ActivateVirtualEnvCommand.run (self : ActivateVirtualEnvCommand)
    (cwd : String) (env : Env) : ActivateVirtualEnvCommand × Env :=
  let self := { self with
    old_virtual_env := envGet env "VIRTUAL_ENV"
    old_virtual_env_dir := envGet env "VIRTUAL_ENV_DIR"
    old_path := envGet env "PATH"
    old_pythonpath := envGet env "PYTHONPATH" }
  let env_path := abspathJoin cwd self.directory
  let env := envSet env "PATH"
    (String.intercalate ":"
      ((env_path ++ "/bin") :: pySplitColon ((envGet env "PATH").getD "")))
  let env := envSet env "PYTHONPATH"
    (String.intercalate ":"
      (pySplitColon ((envGet env "PYTHONPATH").getD "") ++
        [env_path ++ "/lib/python" ++ python_version_short ++ "/site-packages"]))
  let env :=
    if envContains env "CONDA_PREFIX" then
      let env := List.foldl
        (fun e (p : String × String) =>
          envSet e ("CONDA_PREFIX_" ++ toString (condaPrefixIndex p.1 + 1)) p.2)
        env (condaPrefixItems env)
      let old_shlvl := pyInt ((envGet env "CONDA_SHLVL").getD "")
      let env := envSet env "CONDA_SHLVL" (toString (old_shlvl + 1))
      let env := envSet env "CONDA_PREFIX_1" ((envGet env "CONDA_PREFIX").getD "")
      let env := envSet env "CONDA_PREFIX" env_path
      envSet env "CONDA_DEFAULT_ENV" env_path
    else
      let env := envSet env "VIRTUAL_ENV" env_path
      envSet env "VIRTUAL_ENV_DIR" env_path
  (self, env)

/-- `ActivateVirtualEnvCommand.__aexit__` (commands.py lines 163-190):
write back each non-`None` snapshot, then, when `CONDA_PREFIX` is present,
lower the shell level (deleting `CONDA_SHLVL` at zero) and pull every
indexed prefix down by one, `CONDA_PREFIX_1` becoming
`CONDA_PREFIX`/`CONDA_DEFAULT_ENV`. -/
def ActivateVirtualEnvCommand.aexit (self : ActivateVirtualEnvCommand)
    (env : Env) : Env :=
  let env := match self.old_virtual_env with
    | some v => envSet env "VIRTUAL_ENV" v
    | none => env
  let env := match self.old_virtual_env_dir with
    | some v => envSet env "VIRTUAL_ENV_DIR" v
    | none => env
  let env := match self.old_path with
    | some v => envSet env "PATH" v
    | none => env
  let env := match self.old_pythonpath with
    | some v => envSet env "PYTHONPATH" v
    | none => env
  if envContains env "CONDA_PREFIX" then
    let env := envSet env "CONDA_SHLVL"
      (toString (pyInt ((envGet env "CONDA_SHLVL").getD "") - 1))
    let env :=
      if pyInt ((envGet env "CONDA_SHLVL").getD "") = 0 then
        envDel env "CONDA_SHLVL"
      else env
    List.foldl
      (fun e (p : String × String) =>
        let e := envDel e p.1
        let n := condaPrefixIndex p.1
        if n = 1 then
          envSet (envSet e "CONDA_PREFIX" p.2) "CONDA_DEFAULT_ENV" p.2
        else
          envSet e ("CONDA_PREFIX_" ++ toString (n - 1)) p.2)
      env (condaPrefixItems env)
  else env

/-- A freshly constructed `ActivateVirtualEnvCommand(".venv")`. -/
def freshActivate : ActivateVirtualEnvCommand :=
  { directory := ".venv" }

/-- An environment in which the virtualenv-strategy snapshot variables are
all set. -/
def venvPresetEnv (v w p q : String) : Env :=
  [("VIRTUAL_ENV", v), ("VIRTUAL_ENV_DIR", w), ("PATH", p), ("PYTHONPATH", q)]

/-- A conda-style environment at shell level 1 whose default environment
equals its prefix. -/
def condaPresetEnv (c p q : String) : Env :=
  [("CONDA_PREFIX", c), ("CONDA_SHLVL", "1"), ("CONDA_DEFAULT_ENV", c),
    ("PATH", p), ("PYTHONPATH", q)]

/-- **C4 (counterexample).** Activating then deactivating does *not* always
restore the environment exactly.  Virtualenv strategy: starting without
`VIRTUAL_ENV`, after activate + deactivate the variable `VIRTUAL_ENV` is
left set to the activated root (`__aexit__` only restores snapshots that
were not `None`; it never deletes).  Conda strategy: starting with
`CONDA_DEFAULT_ENV = "base"` distinct from `CONDA_PREFIX = "/c"`,
deactivation sets `CONDA_DEFAULT_ENV` to the old *prefix* `/c`, not the old
default environment.  Conda strategy with a stray indexed prefix: starting
from an otherwise canonical level-1 state that also carries
`CONDA_PREFIX_3 = "/x"`, activation copies it up to `CONDA_PREFIX_4`
without deleting it and deactivation pulls both copies down, so a leaked
`CONDA_PREFIX_2 = "/x"` remains after the roundtrip. -/
theorem activate_roundtrip_not_exact :
    (envGet
        ((freshActivate.run "/tmp/docs"
            [("PATH", "/usr/bin"), ("PYTHONPATH", "/lib")]).1.aexit
          (freshActivate.run "/tmp/docs"
            [("PATH", "/usr/bin"), ("PYTHONPATH", "/lib")]).2)
        "VIRTUAL_ENV" = some "/tmp/docs/.venv" ∧
      envGet [("PATH", "/usr/bin"), ("PYTHONPATH", "/lib")] "VIRTUAL_ENV" = none) ∧
    (envGet
        ((freshActivate.run "/tmp/docs"
            [("CONDA_PREFIX", "/c"), ("CONDA_SHLVL", "1"),
              ("CONDA_DEFAULT_ENV", "base"), ("PATH", "/usr/bin"),
              ("PYTHONPATH", "/lib")]).1.aexit
          (freshActivate.run "/tmp/docs"
            [("CONDA_PREFIX", "/c"), ("CONDA_SHLVL", "1"),
              ("CONDA_DEFAULT_ENV", "base"), ("PATH", "/usr/bin"),
              ("PYTHONPATH", "/lib")]).2)
        "CONDA_DEFAULT_ENV" = some "/c" ∧
      envGet
        [("CONDA_PREFIX", "/c"), ("CONDA_SHLVL", "1"),
          ("CONDA_DEFAULT_ENV", "base"), ("PATH", "/usr/bin"),
          ("PYTHONPATH", "/lib")] "CONDA_DEFAULT_ENV" = some "base") ∧
    (envGet
        ((freshActivate.run "/tmp/docs"
            [("CONDA_PREFIX", "/c"), ("CONDA_SHLVL", "1"),
              ("CONDA_DEFAULT_ENV", "/c"), ("PATH", "/usr/bin"),
              ("PYTHONPATH", "/lib"), ("CONDA_PREFIX_3", "/x")]).1.aexit
          (freshActivate.run "/tmp/docs"
            [("CONDA_PREFIX", "/c"), ("CONDA_SHLVL", "1"),
              ("CONDA_DEFAULT_ENV", "/c"), ("PATH", "/usr/bin"),
              ("PYTHONPATH", "/lib"), ("CONDA_PREFIX_3", "/x")]).2)
        "CONDA_PREFIX_2" = some "/x" ∧
      envGet
        [("CONDA_PREFIX", "/c"), ("CONDA_SHLVL", "1"),
          ("CONDA_DEFAULT_ENV", "/c"), ("PATH", "/usr/bin"),
          ("PYTHONPATH", "/lib"), ("CONDA_PREFIX_3", "/x")]
        "CONDA_PREFIX_2" = none) := by
  decide

/-! ### Phase decomposition of `run` and `__aexit__`

`run` and `__aexit__` factor into named phases - the common `PATH` and
`PYTHONPATH` update, the conda and virtualenv activation bodies, the
snapshot write-back and the conda downshift - each definitionally equal to
the corresponding slice of the source (`run_fst`, `run_snd`,
`aexit_eq_phases` hold by `rfl`).  The amended-claim theorem is proved
pointwise from per-phase characterisations valid on arbitrary
environments. -/


/-- The environment root computed by `run` for directory `".venv"`. -/
def envRoot (cwd : String) : String := abspathJoin cwd ".venv"

/-- The root directory for `site-packages`. -/
def sitePackagesDir (cwd : String) : String :=
  envRoot cwd ++ "/lib/python" ++ python_version_short ++ "/site-packages"

/-- The first phase of `run`, common to both strategies (commands.py lines
124-137): prepend the root directory for binaries to `PATH` and append the
root's `site-packages` to `PYTHONPATH`. -/
def pathsUpdated (cwd : String) (env : Env) : Env :=
  let env := envSet env "PATH"
    (String.intercalate ":"
      ((envRoot cwd ++ "/bin") :: pySplitColon ((envGet env "PATH").getD "")))
  envSet env "PYTHONPATH"
    (String.intercalate ":"
      (pySplitColon ((envGet env "PYTHONPATH").getD "") ++ [sitePackagesDir cwd]))

/-- The conda branch of `run` (commands.py lines 139-152), applied to the
`pathsUpdated` environment: bump every indexed prefix variable up one index,
raise the shell level, then install `CONDA_PREFIX_1` and the new prefix. -/
def condaUpdated (cwd : String) (env : Env) : Env :=
  let env := List.foldl
    (fun e (p : String × String) =>
      envSet e ("CONDA_PREFIX_" ++ toString (condaPrefixIndex p.1 + 1)) p.2)
    env (condaPrefixItems env)
  let old_shlvl := pyInt ((envGet env "CONDA_SHLVL").getD "")
  let env := envSet env "CONDA_SHLVL" (toString (old_shlvl + 1))
  let env := envSet env "CONDA_PREFIX_1" ((envGet env "CONDA_PREFIX").getD "")
  let env := envSet env "CONDA_PREFIX" (envRoot cwd)
  envSet env "CONDA_DEFAULT_ENV" (envRoot cwd)

/-- The virtualenv branch of `run` (commands.py lines 154-158). -/
def venvUpdated (cwd : String) (env : Env) : Env :=
  envSet (envSet env "VIRTUAL_ENV" (envRoot cwd)) "VIRTUAL_ENV_DIR" (envRoot cwd)

lemma run_fst (cwd : String) (env : Env) :
    (freshActivate.run cwd env).1 =
      { directory := ".venv", old_virtual_env := envGet env "VIRTUAL_ENV",
        old_virtual_env_dir := envGet env "VIRTUAL_ENV_DIR",
        old_path := envGet env "PATH",
        old_pythonpath := envGet env "PYTHONPATH" } := rfl

lemma run_snd (cwd : String) (env : Env) :
    (freshActivate.run cwd env).2 =
      if envContains (pathsUpdated cwd env) "CONDA_PREFIX" then
        condaUpdated cwd (pathsUpdated cwd env)
      else venvUpdated cwd (pathsUpdated cwd env) := rfl

/-- One write-back step of `__aexit__`: restore a snapshotted variable when
the snapshot was not `None`. -/
def restoreVar (env : Env) (key : String) : Option String → Env
  | some v => envSet env key v
  | none => env

/-- The write-back phase of `__aexit__` (commands.py lines 165-176). -/
def restoreSnapshots (self : ActivateVirtualEnvCommand) (env : Env) : Env :=
  restoreVar
    (restoreVar
      (restoreVar (restoreVar env "VIRTUAL_ENV" self.old_virtual_env)
        "VIRTUAL_ENV_DIR" self.old_virtual_env_dir)
      "PATH" self.old_path)
    "PYTHONPATH" self.old_pythonpath

/-- The conda phase of `__aexit__` (commands.py lines 178-190): lower the
shell level (deleting `CONDA_SHLVL` at zero) and pull every indexed prefix
variable down one index, `CONDA_PREFIX_1` becoming
`CONDA_PREFIX`/`CONDA_DEFAULT_ENV`. -/
def condaDownshift (env : Env) : Env :=
  let env := envSet env "CONDA_SHLVL"
    (toString (pyInt ((envGet env "CONDA_SHLVL").getD "") - 1))
  let env :=
    if pyInt ((envGet env "CONDA_SHLVL").getD "") = 0 then
      envDel env "CONDA_SHLVL"
    else env
  List.foldl
    (fun e (p : String × String) =>
      let e := envDel e p.1
      let n := condaPrefixIndex p.1
      if n = 1 then
        envSet (envSet e "CONDA_PREFIX" p.2) "CONDA_DEFAULT_ENV" p.2
      else
        envSet e ("CONDA_PREFIX_" ++ toString (n - 1)) p.2)
    env (condaPrefixItems env)

lemma aexit_eq_phases (self : ActivateVirtualEnvCommand) (env : Env) :
    self.aexit env =
      if envContains (restoreSnapshots self env) "CONDA_PREFIX" then
        condaDownshift (restoreSnapshots self env)
      else restoreSnapshots self env := rfl


-- support lemmas

lemma envSetInPlace_of_forall_ne (e : Env) (k v : String)
    (h : ∀ p ∈ e, p.1 ≠ k) : envSetInPlace e k v = e := by
  induction e with
  | nil => rfl
  | cons p rest ih =>
    rw [envSetInPlace, if_neg (h p (List.mem_cons_self p rest)),
      ih (fun q hq => h q (List.mem_cons_of_mem p hq))]

lemma condaPrefixItems_envSetInPlace (e : Env) (k v : String) :
    condaPrefixItems (envSetInPlace e k v) =
      envSetInPlace (condaPrefixItems e) k v := by
  induction e with
  | nil => rfl
  | cons p rest ih =>
    simp only [condaPrefixItems] at ih ⊢
    by_cases hp : p.1 = k
    · by_cases hk : isCondaPrefixKey k
      · simp [envSetInPlace, List.filter_cons, hp, hk, ih]
      · simp [envSetInPlace, List.filter_cons, hp, hk, ih]
    · by_cases hpp : isCondaPrefixKey p.1
      · simp [envSetInPlace, List.filter_cons, hp, hpp, ih]
      · simp [envSetInPlace, List.filter_cons, hp, hpp, ih]

lemma condaPrefixItems_append (a b : Env) :
    condaPrefixItems (a ++ b) = condaPrefixItems a ++ condaPrefixItems b := by
  simp [condaPrefixItems, List.filter_append]

lemma envGet_condaPrefixItems (e : Env) (k : String)
    (hk : isCondaPrefixKey k = true) :
    envGet (condaPrefixItems e) k = envGet e k := by
  induction e with
  | nil => rfl
  | cons p rest ih =>
    by_cases hp : p.1 = k
    · have hpp : isCondaPrefixKey p.1 = true := by rw [hp]; exact hk
      simp [condaPrefixItems, List.filter_cons, hpp, envGet, hp, hk]
    · by_cases hpp : isCondaPrefixKey p.1
      · simp only [condaPrefixItems, List.filter_cons, hpp, if_true]
        rw [envGet, if_neg hp, envGet, if_neg hp]
        exact ih
      · simp only [condaPrefixItems, List.filter_cons, hpp]
        rw [envGet, if_neg hp]
        simpa [condaPrefixItems] using ih

lemma condaPrefixItems_envSet_of_other_key (e : Env) (k v : String)
    (hk : isCondaPrefixKey k = false) :
    condaPrefixItems (envSet e k v) = condaPrefixItems e := by
  unfold envSet
  split
  · rw [condaPrefixItems_envSetInPlace]
    refine envSetInPlace_of_forall_ne _ _ _ ?_
    intro p hp hpk
    have hmem : isCondaPrefixKey p.1 = true := by
      have := List.mem_filter.mp hp
      exact this.2
    rw [hpk, hk] at hmem
    exact Bool.false_ne_true hmem
  · rw [condaPrefixItems_append]
    simp [condaPrefixItems, List.filter_cons, hk]

lemma condaPrefixItems_envSet_of_fresh_key (e : Env) (k v : String)
    (hk : isCondaPrefixKey k = true) (hc : envContains e k = false) :
    condaPrefixItems (envSet e k v) = condaPrefixItems e ++ [(k, v)] := by
  unfold envSet
  simp only [hc, Bool.false_eq_true, if_false]
  rw [condaPrefixItems_append]
  simp [condaPrefixItems, List.filter_cons, hk]

lemma condaPrefixItems_envSet_of_present_key (e : Env) (k v : String)
    (hc : envContains e k = true) :
    condaPrefixItems (envSet e k v) = envSetInPlace (condaPrefixItems e) k v := by
  unfold envSet
  simp only [hc, if_true]
  exact condaPrefixItems_envSetInPlace e k v

lemma condaPrefixItems_envDel (e : Env) (k : String) :
    condaPrefixItems (envDel e k) = envDel (condaPrefixItems e) k := by
  induction e with
  | nil => rfl
  | cons p rest ih =>
    simp only [condaPrefixItems] at ih ⊢
    by_cases hp : p.1 = k
    · by_cases hpp : isCondaPrefixKey p.1
      · have hk : isCondaPrefixKey k = true := by rw [← hp]; exact hpp
        simp [envDel, List.filter_cons, hp, hpp, hk, ih]
      · have hk : ¬isCondaPrefixKey k = true := by rw [← hp]; exact hpp
        simp [envDel, List.filter_cons, hp, hpp, hk, ih]
    · by_cases hpp : isCondaPrefixKey p.1
      · simp [envDel, List.filter_cons, hp, hpp, ih]
      · simp [envDel, List.filter_cons, hp, hpp, ih]

lemma envGet_restoreVar (e : Env) (key : String) (o : Option String)
    (h : o = envGet e key) (k : String) :
    envGet (restoreVar e key o) k = envGet e k := by
  rcases o with _ | v
  · rfl
  · rw [restoreVar, envGet_envSet]
    rcases eq_or_ne k key with hk | hk
    · subst hk
      rw [if_pos rfl]
      exact h
    · rw [if_neg hk]

lemma envGet_restoreVar_some (e : Env) (key v k : String) :
    envGet (restoreVar e key (some v)) k =
      if k = key then some v else envGet e k := by
  rw [restoreVar, envGet_envSet]

lemma condaPrefixItems_restoreVar (e : Env) (key : String) (o : Option String)
    (hk : isCondaPrefixKey key = false) :
    condaPrefixItems (restoreVar e key o) = condaPrefixItems e := by
  rcases o with _ | v
  · rfl
  · rw [restoreVar]
    exact condaPrefixItems_envSet_of_other_key e key v hk

lemma condaPrefixItems_restoreSnapshots (self : ActivateVirtualEnvCommand)
    (env : Env) :
    condaPrefixItems (restoreSnapshots self env) = condaPrefixItems env := by
  unfold restoreSnapshots
  rw [condaPrefixItems_restoreVar _ _ _ (by decide),
    condaPrefixItems_restoreVar _ _ _ (by decide),
    condaPrefixItems_restoreVar _ _ _ (by decide),
    condaPrefixItems_restoreVar _ _ _ (by decide)]


lemma envGet_pathsUpdated_frame (cwd : String) (env : Env) (k : String)
    (h1 : ¬k = "PATH") (h2 : ¬k = "PYTHONPATH") :
    envGet (pathsUpdated cwd env) k = envGet env k := by
  simp only [pathsUpdated]
  rw [envGet_envSet, if_neg h2, envGet_envSet, if_neg h1]

lemma pathsUpdated_path_isSome (cwd : String) (env : Env) :
    (envGet (pathsUpdated cwd env) "PATH").isSome = true := by
  simp only [pathsUpdated]
  rw [envGet_envSet, if_neg (by decide : ¬("PATH" : String) = "PYTHONPATH"),
    envGet_envSet, if_pos rfl]
  rfl

lemma pathsUpdated_pythonpath_isSome (cwd : String) (env : Env) :
    (envGet (pathsUpdated cwd env) "PYTHONPATH").isSome = true := by
  simp only [pathsUpdated]
  rw [envGet_envSet, if_pos rfl]
  rfl

lemma condaPrefixItems_pathsUpdated (cwd : String) (env : Env) :
    condaPrefixItems (pathsUpdated cwd env) = condaPrefixItems env := by
  simp only [pathsUpdated]
  rw [condaPrefixItems_envSet_of_other_key _ _ _ (by decide),
    condaPrefixItems_envSet_of_other_key _ _ _ (by decide)]

lemma envGet_venvUpdated (cwd : String) (env : Env) (k : String) :
    envGet (venvUpdated cwd env) k =
      if k = "VIRTUAL_ENV_DIR" then some (envRoot cwd)
      else if k = "VIRTUAL_ENV" then some (envRoot cwd)
      else envGet env k := by
  unfold venvUpdated
  rw [envGet_envSet, envGet_envSet]

lemma restoreSnapshots_char_all (self : ActivateVirtualEnvCommand) (env : Env)
    (ov ow op oq : String)
    (hv : self.old_virtual_env = some ov)
    (hw : self.old_virtual_env_dir = some ow)
    (hp : self.old_path = some op) (hq : self.old_pythonpath = some oq)
    (k : String) :
    envGet (restoreSnapshots self env) k =
      if k = "PYTHONPATH" then some oq
      else if k = "PATH" then some op
      else if k = "VIRTUAL_ENV_DIR" then some ow
      else if k = "VIRTUAL_ENV" then some ov
      else envGet env k := by
  unfold restoreSnapshots
  rw [hv, hw, hp, hq]
  simp only [restoreVar]
  rw [envGet_envSet, envGet_envSet, envGet_envSet, envGet_envSet]

lemma restoreSnapshots_char_frame (self : ActivateVirtualEnvCommand) (env : Env)
    (op oq : String)
    (hv : self.old_virtual_env = envGet env "VIRTUAL_ENV")
    (hw : self.old_virtual_env_dir = envGet env "VIRTUAL_ENV_DIR")
    (hp : self.old_path = some op) (hq : self.old_pythonpath = some oq)
    (k : String) :
    envGet (restoreSnapshots self env) k =
      if k = "PYTHONPATH" then some oq
      else if k = "PATH" then some op
      else envGet env k := by
  have hVE : ∀ j, envGet (restoreVar env "VIRTUAL_ENV" self.old_virtual_env) j =
      envGet env j :=
    envGet_restoreVar env "VIRTUAL_ENV" self.old_virtual_env hv
  have hvd : self.old_virtual_env_dir =
      envGet (restoreVar env "VIRTUAL_ENV" self.old_virtual_env)
        "VIRTUAL_ENV_DIR" :=
    hw.trans (hVE "VIRTUAL_ENV_DIR").symm
  have hVD : ∀ j, envGet (restoreVar
      (restoreVar env "VIRTUAL_ENV" self.old_virtual_env) "VIRTUAL_ENV_DIR"
      self.old_virtual_env_dir) j = envGet env j := by
    intro j
    rw [envGet_restoreVar _ _ _ hvd j]
    exact hVE j
  unfold restoreSnapshots
  rw [hp, hq, envGet_restoreVar_some, envGet_restoreVar_some, hVD k]


lemma condaUpdated_char_nil (cwd : String) (env : Env) (s c : String)
    (hnop : condaPrefixItems env = [])
    (hs : envGet env "CONDA_SHLVL" = some s)
    (hc : envGet env "CONDA_PREFIX" = some c) :
    (∀ k, envGet (condaUpdated cwd env) k =
      if k = "CONDA_DEFAULT_ENV" then some (envRoot cwd)
      else if k = "CONDA_PREFIX" then some (envRoot cwd)
      else if k = "CONDA_PREFIX_1" then some c
      else if k = "CONDA_SHLVL" then some (toString (pyInt s + 1))
      else envGet env k) ∧
    condaPrefixItems (condaUpdated cwd env) = [("CONDA_PREFIX_1", c)] := by
  have hbody : condaUpdated cwd env =
      envSet (envSet (envSet (envSet env "CONDA_SHLVL" (toString (pyInt s + 1)))
        "CONDA_PREFIX_1" c) "CONDA_PREFIX" (envRoot cwd))
        "CONDA_DEFAULT_ENV" (envRoot cwd) := by
    simp only [condaUpdated, hnop, List.foldl_nil]
    rw [hs]
    simp only [Option.getD_some]
    rw [show envGet (envSet env "CONDA_SHLVL"
        (toString (pyInt s + 1))) "CONDA_PREFIX" = some c from by
      rw [envGet_envSet,
        if_neg (by decide : ¬("CONDA_PREFIX" : String) = "CONDA_SHLVL")]
      exact hc]
    rfl
  refine ⟨fun k => ?_, ?_⟩
  · rw [hbody, envGet_envSet, envGet_envSet, envGet_envSet, envGet_envSet]
  · have hfresh : envContains (envSet env "CONDA_SHLVL"
        (toString (pyInt s + 1))) "CONDA_PREFIX_1" = false := by
      rw [envContains_eq_isSome, envGet_envSet,
        if_neg (by decide : ¬("CONDA_PREFIX_1" : String) = "CONDA_SHLVL"),
        ← envGet_condaPrefixItems env "CONDA_PREFIX_1" (by decide), hnop]
      rfl
    rw [hbody,
      condaPrefixItems_envSet_of_other_key _ _ _ (by decide),
      condaPrefixItems_envSet_of_other_key _ _ _ (by decide),
      condaPrefixItems_envSet_of_fresh_key _ _ _ (by decide) hfresh,
      condaPrefixItems_envSet_of_other_key _ _ _ (by decide), hnop]
    rfl

lemma condaUpdated_char_one (cwd : String) (env : Env) (s c oldPrefix : String)
    (hone : condaPrefixItems env = [("CONDA_PREFIX_1", c)])
    (hs : envGet env "CONDA_SHLVL" = some s)
    (hc : envGet env "CONDA_PREFIX" = some oldPrefix) :
    (∀ k, envGet (condaUpdated cwd env) k =
      if k = "CONDA_DEFAULT_ENV" then some (envRoot cwd)
      else if k = "CONDA_PREFIX" then some (envRoot cwd)
      else if k = "CONDA_PREFIX_1" then some oldPrefix
      else if k = "CONDA_SHLVL" then some (toString (pyInt s + 1))
      else if k = "CONDA_PREFIX_2" then some c
      else envGet env k) ∧
    condaPrefixItems (condaUpdated cwd env) =
      [("CONDA_PREFIX_1", oldPrefix), ("CONDA_PREFIX_2", c)] := by
  have hkey : ("CONDA_PREFIX_" ++ toString (condaPrefixIndex "CONDA_PREFIX_1" + 1))
      = "CONDA_PREFIX_2" := by decide
  have hbody : condaUpdated cwd env =
      envSet (envSet (envSet (envSet (envSet env "CONDA_PREFIX_2" c)
        "CONDA_SHLVL" (toString (pyInt s + 1)))
        "CONDA_PREFIX_1" oldPrefix) "CONDA_PREFIX" (envRoot cwd))
        "CONDA_DEFAULT_ENV" (envRoot cwd) := by
    simp only [condaUpdated, hone, List.foldl_cons, List.foldl_nil]
    rw [hkey]
    rw [show envGet (envSet env "CONDA_PREFIX_2" c) "CONDA_SHLVL" = some s from by
      rw [envGet_envSet,
        if_neg (by decide : ¬("CONDA_SHLVL" : String) = "CONDA_PREFIX_2")]
      exact hs]
    simp only [Option.getD_some]
    rw [show envGet (envSet (envSet env "CONDA_PREFIX_2" c) "CONDA_SHLVL"
        (toString (pyInt s + 1))) "CONDA_PREFIX" = some oldPrefix from by
      rw [envGet_envSet,
        if_neg (by decide : ¬("CONDA_PREFIX" : String) = "CONDA_SHLVL"),
        envGet_envSet,
        if_neg (by decide : ¬("CONDA_PREFIX" : String) = "CONDA_PREFIX_2")]
      exact hc]
    rfl
  refine ⟨fun k => ?_, ?_⟩
  · rw [hbody, envGet_envSet, envGet_envSet, envGet_envSet, envGet_envSet,
      envGet_envSet]
  · have hP2fresh : envContains env "CONDA_PREFIX_2" = false := by
      rw [envContains_eq_isSome,
        ← envGet_condaPrefixItems env "CONDA_PREFIX_2" (by decide), hone]
      rfl
    have hP1pres : envContains (envSet (envSet env "CONDA_PREFIX_2" c)
        "CONDA_SHLVL" (toString (pyInt s + 1))) "CONDA_PREFIX_1" = true := by
      rw [envContains_eq_isSome, envGet_envSet,
        if_neg (by decide : ¬("CONDA_PREFIX_1" : String) = "CONDA_SHLVL"),
        envGet_envSet,
        if_neg (by decide : ¬("CONDA_PREFIX_1" : String) = "CONDA_PREFIX_2"),
        ← envGet_condaPrefixItems env "CONDA_PREFIX_1" (by decide), hone]
      rfl
    rw [hbody,
      condaPrefixItems_envSet_of_other_key _ _ _ (by decide),
      condaPrefixItems_envSet_of_other_key _ _ _ (by decide),
      condaPrefixItems_envSet_of_present_key _ _ _ hP1pres,
      condaPrefixItems_envSet_of_other_key _ _ _ (by decide),
      condaPrefixItems_envSet_of_fresh_key _ _ _ (by decide) hP2fresh,
      hone]
    rfl

lemma condaDownshift_char_one (env : Env) (s2 v1 : String)
    (hs2 : envGet env "CONDA_SHLVL" = some s2)
    (hone : condaPrefixItems env = [("CONDA_PREFIX_1", v1)])
    (hnz : ¬pyInt (toString (pyInt s2 - 1)) = 0) :
    ∀ k, envGet (condaDownshift env) k =
      if k = "CONDA_DEFAULT_ENV" then some v1
      else if k = "CONDA_PREFIX" then some v1
      else if k = "CONDA_PREFIX_1" then none
      else if k = "CONDA_SHLVL" then some (toString (pyInt s2 - 1))
      else envGet env k := by
  have hidx : condaPrefixIndex "CONDA_PREFIX_1" = 1 := by decide
  have hbody : condaDownshift env =
      envSet (envSet (envDel (envSet env "CONDA_SHLVL"
        (toString (pyInt s2 - 1))) "CONDA_PREFIX_1") "CONDA_PREFIX" v1)
        "CONDA_DEFAULT_ENV" v1 := by
    simp only [condaDownshift]
    rw [hs2]
    simp only [Option.getD_some]
    rw [show envGet (envSet env "CONDA_SHLVL"
        (toString (pyInt s2 - 1))) "CONDA_SHLVL" =
        some (toString (pyInt s2 - 1)) from by
      rw [envGet_envSet, if_pos rfl]]
    simp only [Option.getD_some]
    rw [if_neg hnz,
      condaPrefixItems_envSet_of_other_key _ _ _ (by decide), hone]
    simp only [List.foldl_cons, List.foldl_nil]
    rw [hidx, if_pos rfl]
  intro k
  rw [hbody, envGet_envSet, envGet_envSet, envGet_envDel, envGet_envSet]

lemma condaDownshift_char_two (env : Env) (s2 v1 v2 : String)
    (hs2 : envGet env "CONDA_SHLVL" = some s2)
    (htwo : condaPrefixItems env =
      [("CONDA_PREFIX_1", v1), ("CONDA_PREFIX_2", v2)])
    (hnz : ¬pyInt (toString (pyInt s2 - 1)) = 0) :
    (∀ k, envGet (condaDownshift env) k =
      if k = "CONDA_PREFIX_1" then some v2
      else if k = "CONDA_PREFIX_2" then none
      else if k = "CONDA_DEFAULT_ENV" then some v1
      else if k = "CONDA_PREFIX" then some v1
      else if k = "CONDA_SHLVL" then some (toString (pyInt s2 - 1))
      else envGet env k) ∧
    condaPrefixItems (condaDownshift env) = [("CONDA_PREFIX_1", v2)] := by
  have hidx1 : condaPrefixIndex "CONDA_PREFIX_1" = 1 := by decide
  have hidx2 : ¬condaPrefixIndex "CONDA_PREFIX_2" = 1 := by decide
  have hkey : ("CONDA_PREFIX_" ++ toString (condaPrefixIndex "CONDA_PREFIX_2" - 1))
      = "CONDA_PREFIX_1" := by decide
  have hbody : condaDownshift env =
      envSet (envDel (envSet (envSet (envDel (envSet env "CONDA_SHLVL"
        (toString (pyInt s2 - 1))) "CONDA_PREFIX_1") "CONDA_PREFIX" v1)
        "CONDA_DEFAULT_ENV" v1) "CONDA_PREFIX_2") "CONDA_PREFIX_1" v2 := by
    simp only [condaDownshift]
    rw [hs2]
    simp only [Option.getD_some]
    rw [show envGet (envSet env "CONDA_SHLVL"
        (toString (pyInt s2 - 1))) "CONDA_SHLVL" =
        some (toString (pyInt s2 - 1)) from by
      rw [envGet_envSet, if_pos rfl]]
    simp only [Option.getD_some]
    rw [if_neg hnz,
      condaPrefixItems_envSet_of_other_key _ _ _ (by decide), htwo]
    simp only [List.foldl_cons, List.foldl_nil]
    rw [hidx1, if_pos rfl, if_neg hidx2, hkey]
  have hfresh2 : envContains (envDel (envSet (envSet (envDel (envSet env
      "CONDA_SHLVL" (toString (pyInt s2 - 1))) "CONDA_PREFIX_1")
      "CONDA_PREFIX" v1) "CONDA_DEFAULT_ENV" v1) "CONDA_PREFIX_2")
      "CONDA_PREFIX_1" = false := by
    rw [envContains_eq_isSome, envGet_envDel,
      if_neg (by decide : ¬("CONDA_PREFIX_1" : String) = "CONDA_PREFIX_2"),
      envGet_envSet,
      if_neg (by decide : ¬("CONDA_PREFIX_1" : String) = "CONDA_DEFAULT_ENV"),
      envGet_envSet,
      if_neg (by decide : ¬("CONDA_PREFIX_1" : String) = "CONDA_PREFIX"),
      envGet_envDel, if_pos rfl]
    rfl
  refine ⟨fun k => ?_, ?_⟩
  · rw [hbody, envGet_envSet, envGet_envDel, envGet_envSet, envGet_envSet,
      envGet_envDel, envGet_envSet]
    by_cases h1 : k = "CONDA_PREFIX_1"
    · rw [if_pos h1, if_pos h1]
    · rw [if_neg h1, if_neg h1, if_neg h1]
  · rw [hbody,
      condaPrefixItems_envSet_of_fresh_key _ _ _ (by decide) hfresh2,
      condaPrefixItems_envDel,
      condaPrefixItems_envSet_of_other_key _ _ _ (by decide),
      condaPrefixItems_envSet_of_other_key _ _ _ (by decide),
      condaPrefixItems_envDel,
      condaPrefixItems_envSet_of_other_key _ _ _ (by decide), htwo]
    rfl


lemma run_snd_venv (cwd : String) (env : Env)
    (hnc : envContains env "CONDA_PREFIX" = false) :
    (freshActivate.run cwd env).2 = venvUpdated cwd (pathsUpdated cwd env) := by
  have h2 : envContains (pathsUpdated cwd env) "CONDA_PREFIX" = false := by
    rw [envContains_eq_isSome,
      envGet_pathsUpdated_frame _ _ _ (by decide) (by decide),
      ← envContains_eq_isSome]
    exact hnc
  rw [run_snd, h2]
  rfl

lemma run_snd_conda (cwd : String) (env : Env) (c : String)
    (hc : envGet env "CONDA_PREFIX" = some c) :
    (freshActivate.run cwd env).2 = condaUpdated cwd (pathsUpdated cwd env) := by
  have h2 : envContains (pathsUpdated cwd env) "CONDA_PREFIX" = true := by
    rw [envContains_eq_isSome,
      envGet_pathsUpdated_frame _ _ _ (by decide) (by decide), hc]
    rfl
  rw [run_snd, h2]
  rfl

lemma aexit_venv_pointwise (self : ActivateVirtualEnvCommand) (e : Env)
    (ov ow op oq : String)
    (hv : self.old_virtual_env = some ov)
    (hw : self.old_virtual_env_dir = some ow)
    (hp : self.old_path = some op) (hq : self.old_pythonpath = some oq)
    (hnc : envContains e "CONDA_PREFIX" = false) :
    ∀ k, envGet (self.aexit e) k =
      if k = "PYTHONPATH" then some oq
      else if k = "PATH" then some op
      else if k = "VIRTUAL_ENV_DIR" then some ow
      else if k = "VIRTUAL_ENV" then some ov
      else envGet e k := by
  have hncR : envContains (restoreSnapshots self e) "CONDA_PREFIX" = false := by
    rw [envContains_eq_isSome,
      restoreSnapshots_char_all self e ov ow op oq hv hw hp hq "CONDA_PREFIX",
      if_neg (by decide : ¬("CONDA_PREFIX" : String) = "PYTHONPATH"),
      if_neg (by decide : ¬("CONDA_PREFIX" : String) = "PATH"),
      if_neg (by decide : ¬("CONDA_PREFIX" : String) = "VIRTUAL_ENV_DIR"),
      if_neg (by decide : ¬("CONDA_PREFIX" : String) = "VIRTUAL_ENV"),
      ← envContains_eq_isSome]
    exact hnc
  intro k
  rw [aexit_eq_phases, hncR, if_neg Bool.false_ne_true]
  exact restoreSnapshots_char_all self e ov ow op oq hv hw hp hq k

lemma aexit_conda_one (self : ActivateVirtualEnvCommand) (e : Env)
    (op oq s2 v1 : String)
    (hv : self.old_virtual_env = envGet e "VIRTUAL_ENV")
    (hw : self.old_virtual_env_dir = envGet e "VIRTUAL_ENV_DIR")
    (hp : self.old_path = some op) (hq : self.old_pythonpath = some oq)
    (hcp : (envGet e "CONDA_PREFIX").isSome = true)
    (hs2 : envGet e "CONDA_SHLVL" = some s2)
    (hone : condaPrefixItems e = [("CONDA_PREFIX_1", v1)])
    (hnz : ¬pyInt (toString (pyInt s2 - 1)) = 0) :
    ∀ k, envGet (self.aexit e) k =
      if k = "CONDA_DEFAULT_ENV" then some v1
      else if k = "CONDA_PREFIX" then some v1
      else if k = "CONDA_PREFIX_1" then none
      else if k = "CONDA_SHLVL" then some (toString (pyInt s2 - 1))
      else if k = "PYTHONPATH" then some oq
      else if k = "PATH" then some op
      else envGet e k := by
  have hR := restoreSnapshots_char_frame self e op oq hv hw hp hq
  have hcpR : envContains (restoreSnapshots self e) "CONDA_PREFIX" = true := by
    rw [envContains_eq_isSome, hR "CONDA_PREFIX",
      if_neg (by decide : ¬("CONDA_PREFIX" : String) = "PYTHONPATH"),
      if_neg (by decide : ¬("CONDA_PREFIX" : String) = "PATH")]
    exact hcp
  have hsR : envGet (restoreSnapshots self e) "CONDA_SHLVL" = some s2 := by
    rw [hR "CONDA_SHLVL",
      if_neg (by decide : ¬("CONDA_SHLVL" : String) = "PYTHONPATH"),
      if_neg (by decide : ¬("CONDA_SHLVL" : String) = "PATH")]
    exact hs2
  have honeR : condaPrefixItems (restoreSnapshots self e) =
      [("CONDA_PREFIX_1", v1)] := by
    rw [condaPrefixItems_restoreSnapshots]
    exact hone
  have hdown := condaDownshift_char_one (restoreSnapshots self e) s2 v1 hsR honeR hnz
  intro k
  rw [aexit_eq_phases, hcpR, if_pos rfl, hdown k, hR k]

lemma aexit_conda_two (self : ActivateVirtualEnvCommand) (e : Env)
    (op oq s2 v1 v2 : String)
    (hv : self.old_virtual_env = envGet e "VIRTUAL_ENV")
    (hw : self.old_virtual_env_dir = envGet e "VIRTUAL_ENV_DIR")
    (hp : self.old_path = some op) (hq : self.old_pythonpath = some oq)
    (hcp : (envGet e "CONDA_PREFIX").isSome = true)
    (hs2 : envGet e "CONDA_SHLVL" = some s2)
    (htwo : condaPrefixItems e =
      [("CONDA_PREFIX_1", v1), ("CONDA_PREFIX_2", v2)])
    (hnz : ¬pyInt (toString (pyInt s2 - 1)) = 0) :
    (∀ k, envGet (self.aexit e) k =
      if k = "CONDA_PREFIX_1" then some v2
      else if k = "CONDA_PREFIX_2" then none
      else if k = "CONDA_DEFAULT_ENV" then some v1
      else if k = "CONDA_PREFIX" then some v1
      else if k = "CONDA_SHLVL" then some (toString (pyInt s2 - 1))
      else if k = "PYTHONPATH" then some oq
      else if k = "PATH" then some op
      else envGet e k) ∧
    condaPrefixItems (self.aexit e) = [("CONDA_PREFIX_1", v2)] := by
  have hR := restoreSnapshots_char_frame self e op oq hv hw hp hq
  have hcpR : envContains (restoreSnapshots self e) "CONDA_PREFIX" = true := by
    rw [envContains_eq_isSome, hR "CONDA_PREFIX",
      if_neg (by decide : ¬("CONDA_PREFIX" : String) = "PYTHONPATH"),
      if_neg (by decide : ¬("CONDA_PREFIX" : String) = "PATH")]
    exact hcp
  have hsR : envGet (restoreSnapshots self e) "CONDA_SHLVL" = some s2 := by
    rw [hR "CONDA_SHLVL",
      if_neg (by decide : ¬("CONDA_SHLVL" : String) = "PYTHONPATH"),
      if_neg (by decide : ¬("CONDA_SHLVL" : String) = "PATH")]
    exact hs2
  have htwoR : condaPrefixItems (restoreSnapshots self e) =
      [("CONDA_PREFIX_1", v1), ("CONDA_PREFIX_2", v2)] := by
    rw [condaPrefixItems_restoreSnapshots]
    exact htwo
  obtain ⟨hdown, hdcpi⟩ :=
    condaDownshift_char_two (restoreSnapshots self e) s2 v1 v2 hsR htwoR hnz
  refine ⟨fun k => ?_, ?_⟩
  · rw [aexit_eq_phases, hcpR, if_pos rfl, hdown k, hR k]
  · rw [aexit_eq_phases, hcpR, if_pos rfl, hdcpi]

lemma run_conda_nil_char (cwd : String) (env : Env) (s c : String)
    (hc : envGet env "CONDA_PREFIX" = some c)
    (hs : envGet env "CONDA_SHLVL" = some s)
    (hnop : condaPrefixItems env = []) :
    (∀ k, envGet (freshActivate.run cwd env).2 k =
      if k = "CONDA_DEFAULT_ENV" then some (envRoot cwd)
      else if k = "CONDA_PREFIX" then some (envRoot cwd)
      else if k = "CONDA_PREFIX_1" then some c
      else if k = "CONDA_SHLVL" then some (toString (pyInt s + 1))
      else envGet (pathsUpdated cwd env) k) ∧
    condaPrefixItems (freshActivate.run cwd env).2 =
      [("CONDA_PREFIX_1", c)] := by
  have hsnd := run_snd_conda cwd env c hc
  have hs1 : envGet (pathsUpdated cwd env) "CONDA_SHLVL" = some s := by
    rw [envGet_pathsUpdated_frame _ _ _ (by decide) (by decide)]
    exact hs
  have hc1 : envGet (pathsUpdated cwd env) "CONDA_PREFIX" = some c := by
    rw [envGet_pathsUpdated_frame _ _ _ (by decide) (by decide)]
    exact hc
  have hnop1 : condaPrefixItems (pathsUpdated cwd env) = [] := by
    rw [condaPrefixItems_pathsUpdated]
    exact hnop
  obtain ⟨hchar, hcpi⟩ :=
    condaUpdated_char_nil cwd (pathsUpdated cwd env) s c hnop1 hs1 hc1
  exact ⟨fun k => by rw [hsnd, hchar k], by rw [hsnd, hcpi]⟩

lemma run_conda_one_char (cwd : String) (env : Env) (s c oldPrefix : String)
    (hc : envGet env "CONDA_PREFIX" = some oldPrefix)
    (hs : envGet env "CONDA_SHLVL" = some s)
    (hone : condaPrefixItems env = [("CONDA_PREFIX_1", c)]) :
    (∀ k, envGet (freshActivate.run cwd env).2 k =
      if k = "CONDA_DEFAULT_ENV" then some (envRoot cwd)
      else if k = "CONDA_PREFIX" then some (envRoot cwd)
      else if k = "CONDA_PREFIX_1" then some oldPrefix
      else if k = "CONDA_SHLVL" then some (toString (pyInt s + 1))
      else if k = "CONDA_PREFIX_2" then some c
      else envGet (pathsUpdated cwd env) k) ∧
    condaPrefixItems (freshActivate.run cwd env).2 =
      [("CONDA_PREFIX_1", oldPrefix), ("CONDA_PREFIX_2", c)] := by
  have hsnd := run_snd_conda cwd env oldPrefix hc
  have hs1 : envGet (pathsUpdated cwd env) "CONDA_SHLVL" = some s := by
    rw [envGet_pathsUpdated_frame _ _ _ (by decide) (by decide)]
    exact hs
  have hc1 : envGet (pathsUpdated cwd env) "CONDA_PREFIX" = some oldPrefix := by
    rw [envGet_pathsUpdated_frame _ _ _ (by decide) (by decide)]
    exact hc
  have hone1 : condaPrefixItems (pathsUpdated cwd env) =
      [("CONDA_PREFIX_1", c)] := by
    rw [condaPrefixItems_pathsUpdated]
    exact hone
  obtain ⟨hchar, hcpi⟩ :=
    condaUpdated_char_one cwd (pathsUpdated cwd env) s c oldPrefix hone1 hs1 hc1
  exact ⟨fun k => by rw [hsnd, hchar k], by rw [hsnd, hcpi]⟩


/-- One activation followed by its deactivation: `run` then `__aexit__` of
a fresh `ActivateVirtualEnvCommand(".venv")`. -/
def activateRoundtrip (cwd : String) (env : Env) : Env :=
  (freshActivate.run cwd env).1.aexit (freshActivate.run cwd env).2

/-- Two nested activations by fresh objects, then both deactivations,
innermost first. -/
def activateRoundtripTwice (cwd : String) (env : Env) : Env :=
  (freshActivate.run cwd env).1.aexit
    ((freshActivate.run cwd (freshActivate.run cwd env).2).1.aexit
      (freshActivate.run cwd (freshActivate.run cwd env).2).2)

/-- Precondition of the virtualenv-style strategy: the four snapshotted
variables are set and `CONDA_PREFIX` is absent. -/
def venvReady (env : Env) : Prop :=
  (envGet env "VIRTUAL_ENV").isSome = true ∧
  (envGet env "VIRTUAL_ENV_DIR").isSome = true ∧
  (envGet env "PATH").isSome = true ∧
  (envGet env "PYTHONPATH").isSome = true ∧
  envContains env "CONDA_PREFIX" = false

/-- Precondition of the conda-style strategy: `PATH` and `PYTHONPATH` are
set, the shell level is the canonical base `"1"` with no indexed prefix
variables, and `CONDA_DEFAULT_ENV` equals `CONDA_PREFIX`. -/
def condaReady (env : Env) : Prop :=
  envGet env "CONDA_DEFAULT_ENV" = envGet env "CONDA_PREFIX" ∧
  (envGet env "CONDA_PREFIX").isSome = true ∧
  envGet env "CONDA_SHLVL" = some "1" ∧
  (envGet env "PATH").isSome = true ∧
  (envGet env "PYTHONPATH").isSome = true ∧
  condaPrefixItems env = []

instance venvReadyDec (env : Env) : Decidable (venvReady env) := by
  unfold venvReady
  infer_instance

instance condaReadyDec (env : Env) : Decidable (condaReady env) := by
  unfold condaReady
  infer_instance

lemma venv_roundtrip_pointwise (cwd : String) (env : Env)
    (vv vw vp vq : String)
    (hvv : envGet env "VIRTUAL_ENV" = some vv)
    (hvw : envGet env "VIRTUAL_ENV_DIR" = some vw)
    (hvp : envGet env "PATH" = some vp)
    (hvq : envGet env "PYTHONPATH" = some vq)
    (hnc : envContains env "CONDA_PREFIX" = false) :
    ∀ k, envGet (activateRoundtrip cwd env) k = envGet env k := by
  have hsnd := run_snd_venv cwd env hnc
  have hnc2 : envContains (freshActivate.run cwd env).2 "CONDA_PREFIX"
      = false := by
    rw [envContains_eq_isSome, hsnd, envGet_venvUpdated,
      if_neg (by decide : ¬("CONDA_PREFIX" : String) = "VIRTUAL_ENV_DIR"),
      if_neg (by decide : ¬("CONDA_PREFIX" : String) = "VIRTUAL_ENV"),
      envGet_pathsUpdated_frame _ _ _ (by decide) (by decide),
      ← envContains_eq_isSome]
    exact hnc
  have haex := aexit_venv_pointwise (freshActivate.run cwd env).1
    (freshActivate.run cwd env).2 vv vw vp vq
    (by rw [run_fst]; exact hvv) (by rw [run_fst]; exact hvw)
    (by rw [run_fst]; exact hvp) (by rw [run_fst]; exact hvq) hnc2
  intro k
  show envGet ((freshActivate.run cwd env).1.aexit
    (freshActivate.run cwd env).2) k = envGet env k
  rw [haex k]
  by_cases h1 : k = "PYTHONPATH"
  · rw [if_pos h1, h1, hvq]
  rw [if_neg h1]
  by_cases h2 : k = "PATH"
  · rw [if_pos h2, h2, hvp]
  rw [if_neg h2]
  by_cases h3 : k = "VIRTUAL_ENV_DIR"
  · rw [if_pos h3, h3, hvw]
  rw [if_neg h3]
  by_cases h4 : k = "VIRTUAL_ENV"
  · rw [if_pos h4, h4, hvv]
  rw [if_neg h4]
  rw [hsnd, envGet_venvUpdated, if_neg h3, if_neg h4,
    envGet_pathsUpdated_frame _ _ _ h2 h1]

lemma venv_roundtrip_twice_pointwise (cwd : String) (env : Env)
    (vv vw vp vq : String)
    (hvv : envGet env "VIRTUAL_ENV" = some vv)
    (hvw : envGet env "VIRTUAL_ENV_DIR" = some vw)
    (hvp : envGet env "PATH" = some vp)
    (hvq : envGet env "PYTHONPATH" = some vq)
    (hnc : envContains env "CONDA_PREFIX" = false) :
    ∀ k, envGet (activateRoundtripTwice cwd env) k = envGet env k := by
  have hsnd := run_snd_venv cwd env hnc
  have hVE1 : envGet (freshActivate.run cwd env).2 "VIRTUAL_ENV"
      = some (envRoot cwd) := by
    rw [hsnd, envGet_venvUpdated,
      if_neg (by decide : ¬("VIRTUAL_ENV" : String) = "VIRTUAL_ENV_DIR"),
      if_pos rfl]
  have hVD1 : envGet (freshActivate.run cwd env).2 "VIRTUAL_ENV_DIR"
      = some (envRoot cwd) := by
    rw [hsnd, envGet_venvUpdated, if_pos rfl]
  have hP1s : (envGet (freshActivate.run cwd env).2 "PATH").isSome = true := by
    rw [hsnd, envGet_venvUpdated,
      if_neg (by decide : ¬("PATH" : String) = "VIRTUAL_ENV_DIR"),
      if_neg (by decide : ¬("PATH" : String) = "VIRTUAL_ENV")]
    exact pathsUpdated_path_isSome cwd env
  have hQ1s : (envGet (freshActivate.run cwd env).2 "PYTHONPATH").isSome
      = true := by
    rw [hsnd, envGet_venvUpdated,
      if_neg (by decide : ¬("PYTHONPATH" : String) = "VIRTUAL_ENV_DIR"),
      if_neg (by decide : ¬("PYTHONPATH" : String) = "VIRTUAL_ENV")]
    exact pathsUpdated_pythonpath_isSome cwd env
  obtain ⟨x1, hx1⟩ := Option.isSome_iff_exists.mp hP1s
  obtain ⟨y1, hy1⟩ := Option.isSome_iff_exists.mp hQ1s
  have hnc1 : envContains (freshActivate.run cwd env).2 "CONDA_PREFIX"
      = false := by
    rw [envContains_eq_isSome, hsnd, envGet_venvUpdated,
      if_neg (by decide : ¬("CONDA_PREFIX" : String) = "VIRTUAL_ENV_DIR"),
      if_neg (by decide : ¬("CONDA_PREFIX" : String) = "VIRTUAL_ENV"),
      envGet_pathsUpdated_frame _ _ _ (by decide) (by decide),
      ← envContains_eq_isSome]
    exact hnc
  have hinner := venv_roundtrip_pointwise cwd (freshActivate.run cwd env).2
    (envRoot cwd) (envRoot cwd) x1 y1 hVE1 hVD1 hx1 hy1 hnc1
  have hnc2 : envContains
      (activateRoundtrip cwd (freshActivate.run cwd env).2) "CONDA_PREFIX"
      = false := by
    rw [envContains_eq_isSome, hinner "CONDA_PREFIX", ← envContains_eq_isSome]
    exact hnc1
  have haex := aexit_venv_pointwise (freshActivate.run cwd env).1
    (activateRoundtrip cwd (freshActivate.run cwd env).2) vv vw vp vq
    (by rw [run_fst]; exact hvv) (by rw [run_fst]; exact hvw)
    (by rw [run_fst]; exact hvp) (by rw [run_fst]; exact hvq) hnc2
  intro k
  show envGet ((freshActivate.run cwd env).1.aexit
    (activateRoundtrip cwd (freshActivate.run cwd env).2)) k = envGet env k
  rw [haex k]
  by_cases h1 : k = "PYTHONPATH"
  · rw [if_pos h1, h1, hvq]
  rw [if_neg h1]
  by_cases h2 : k = "PATH"
  · rw [if_pos h2, h2, hvp]
  rw [if_neg h2]
  by_cases h3 : k = "VIRTUAL_ENV_DIR"
  · rw [if_pos h3, h3, hvw]
  rw [if_neg h3]
  by_cases h4 : k = "VIRTUAL_ENV"
  · rw [if_pos h4, h4, hvv]
  rw [if_neg h4]
  rw [hinner k, hsnd, envGet_venvUpdated, if_neg h3, if_neg h4,
    envGet_pathsUpdated_frame _ _ _ h2 h1]


lemma conda_roundtrip_pointwise (cwd : String) (env : Env) (c vp vq : String)
    (hc : envGet env "CONDA_PREFIX" = some c)
    (hd : envGet env "CONDA_DEFAULT_ENV" = some c)
    (hs : envGet env "CONDA_SHLVL" = some "1")
    (hvp : envGet env "PATH" = some vp)
    (hvq : envGet env "PYTHONPATH" = some vq)
    (hnop : condaPrefixItems env = []) :
    ∀ k, envGet (activateRoundtrip cwd env) k = envGet env k := by
  obtain ⟨hchar, hcpi⟩ := run_conda_nil_char cwd env "1" c hc hs hnop
  have hVEframe : envGet (freshActivate.run cwd env).2 "VIRTUAL_ENV"
      = envGet env "VIRTUAL_ENV" := by
    rw [hchar "VIRTUAL_ENV",
      if_neg (by decide : ¬("VIRTUAL_ENV" : String) = "CONDA_DEFAULT_ENV"),
      if_neg (by decide : ¬("VIRTUAL_ENV" : String) = "CONDA_PREFIX"),
      if_neg (by decide : ¬("VIRTUAL_ENV" : String) = "CONDA_PREFIX_1"),
      if_neg (by decide : ¬("VIRTUAL_ENV" : String) = "CONDA_SHLVL"),
      envGet_pathsUpdated_frame _ _ _ (by decide) (by decide)]
  have hVDframe : envGet (freshActivate.run cwd env).2 "VIRTUAL_ENV_DIR"
      = envGet env "VIRTUAL_ENV_DIR" := by
    rw [hchar "VIRTUAL_ENV_DIR",
      if_neg (by decide : ¬("VIRTUAL_ENV_DIR" : String) = "CONDA_DEFAULT_ENV"),
      if_neg (by decide : ¬("VIRTUAL_ENV_DIR" : String) = "CONDA_PREFIX"),
      if_neg (by decide : ¬("VIRTUAL_ENV_DIR" : String) = "CONDA_PREFIX_1"),
      if_neg (by decide : ¬("VIRTUAL_ENV_DIR" : String) = "CONDA_SHLVL"),
      envGet_pathsUpdated_frame _ _ _ (by decide) (by decide)]
  have hcp2 : (envGet (freshActivate.run cwd env).2 "CONDA_PREFIX").isSome
      = true := by
    rw [hchar "CONDA_PREFIX",
      if_neg (by decide : ¬("CONDA_PREFIX" : String) = "CONDA_DEFAULT_ENV"),
      if_pos rfl]
    rfl
  have hs2 : envGet (freshActivate.run cwd env).2 "CONDA_SHLVL"
      = some (toString (pyInt "1" + 1)) := by
    rw [hchar "CONDA_SHLVL",
      if_neg (by decide : ¬("CONDA_SHLVL" : String) = "CONDA_DEFAULT_ENV"),
      if_neg (by decide : ¬("CONDA_SHLVL" : String) = "CONDA_PREFIX"),
      if_neg (by decide : ¬("CONDA_SHLVL" : String) = "CONDA_PREFIX_1"),
      if_pos rfl]
  have haex := aexit_conda_one (freshActivate.run cwd env).1
    (freshActivate.run cwd env).2 vp vq (toString (pyInt "1" + 1)) c
    (by rw [run_fst]; exact hVEframe.symm)
    (by rw [run_fst]; exact hVDframe.symm)
    (by rw [run_fst]; exact hvp) (by rw [run_fst]; exact hvq)
    hcp2 hs2 hcpi (by decide)
  intro k
  show envGet ((freshActivate.run cwd env).1.aexit
    (freshActivate.run cwd env).2) k = envGet env k
  rw [haex k]
  by_cases h1 : k = "CONDA_DEFAULT_ENV"
  · rw [if_pos h1, h1, hd]
  rw [if_neg h1]
  by_cases h2 : k = "CONDA_PREFIX"
  · rw [if_pos h2, h2, hc]
  rw [if_neg h2]
  by_cases h3 : k = "CONDA_PREFIX_1"
  · rw [if_pos h3, h3,
      ← envGet_condaPrefixItems env "CONDA_PREFIX_1" (by decide), hnop]
    rfl
  rw [if_neg h3]
  by_cases h4 : k = "CONDA_SHLVL"
  · rw [if_pos h4, h4, hs]
    decide
  rw [if_neg h4]
  by_cases h5 : k = "PYTHONPATH"
  · rw [if_pos h5, h5, hvq]
  rw [if_neg h5]
  by_cases h6 : k = "PATH"
  · rw [if_pos h6, h6, hvp]
  rw [if_neg h6]
  rw [hchar k, if_neg h1, if_neg h2, if_neg h3, if_neg h4,
    envGet_pathsUpdated_frame _ _ _ h6 h5]


lemma conda_roundtrip_twice_pointwise (cwd : String) (env : Env)
    (c vp vq : String)
    (hc : envGet env "CONDA_PREFIX" = some c)
    (hd : envGet env "CONDA_DEFAULT_ENV" = some c)
    (hs : envGet env "CONDA_SHLVL" = some "1")
    (hvp : envGet env "PATH" = some vp)
    (hvq : envGet env "PYTHONPATH" = some vq)
    (hnop : condaPrefixItems env = []) :
    ∀ k, envGet (activateRoundtripTwice cwd env) k = envGet env k := by
  obtain ⟨hchar1, hcpi1⟩ := run_conda_nil_char cwd env "1" c hc hs hnop
  have h12 : toString (pyInt ("1" : String) + 1) = "2" := by decide
  have hc1 : envGet (freshActivate.run cwd env).2 "CONDA_PREFIX"
      = some (envRoot cwd) := by
    rw [hchar1 "CONDA_PREFIX",
      if_neg (by decide : ¬("CONDA_PREFIX" : String) = "CONDA_DEFAULT_ENV"),
      if_pos rfl]
  have hs1 : envGet (freshActivate.run cwd env).2 "CONDA_SHLVL"
      = some "2" := by
    rw [hchar1 "CONDA_SHLVL",
      if_neg (by decide : ¬("CONDA_SHLVL" : String) = "CONDA_DEFAULT_ENV"),
      if_neg (by decide : ¬("CONDA_SHLVL" : String) = "CONDA_PREFIX"),
      if_neg (by decide : ¬("CONDA_SHLVL" : String) = "CONDA_PREFIX_1"),
      if_pos rfl, h12]
  have hP1s : (envGet (freshActivate.run cwd env).2 "PATH").isSome = true := by
    rw [hchar1 "PATH",
      if_neg (by decide : ¬("PATH" : String) = "CONDA_DEFAULT_ENV"),
      if_neg (by decide : ¬("PATH" : String) = "CONDA_PREFIX"),
      if_neg (by decide : ¬("PATH" : String) = "CONDA_PREFIX_1"),
      if_neg (by decide : ¬("PATH" : String) = "CONDA_SHLVL")]
    exact pathsUpdated_path_isSome cwd env
  have hQ1s : (envGet (freshActivate.run cwd env).2 "PYTHONPATH").isSome
      = true := by
    rw [hchar1 "PYTHONPATH",
      if_neg (by decide : ¬("PYTHONPATH" : String) = "CONDA_DEFAULT_ENV"),
      if_neg (by decide : ¬("PYTHONPATH" : String) = "CONDA_PREFIX"),
      if_neg (by decide : ¬("PYTHONPATH" : String) = "CONDA_PREFIX_1"),
      if_neg (by decide : ¬("PYTHONPATH" : String) = "CONDA_SHLVL")]
    exact pathsUpdated_pythonpath_isSome cwd env
  obtain ⟨x1, hx1⟩ := Option.isSome_iff_exists.mp hP1s
  obtain ⟨y1, hy1⟩ := Option.isSome_iff_exists.mp hQ1s
  have hVE1 : envGet (freshActivate.run cwd env).2 "VIRTUAL_ENV"
      = envGet env "VIRTUAL_ENV" := by
    rw [hchar1 "VIRTUAL_ENV",
      if_neg (by decide : ¬("VIRTUAL_ENV" : String) = "CONDA_DEFAULT_ENV"),
      if_neg (by decide : ¬("VIRTUAL_ENV" : String) = "CONDA_PREFIX"),
      if_neg (by decide : ¬("VIRTUAL_ENV" : String) = "CONDA_PREFIX_1"),
      if_neg (by decide : ¬("VIRTUAL_ENV" : String) = "CONDA_SHLVL"),
      envGet_pathsUpdated_frame _ _ _ (by decide) (by decide)]
  have hVD1 : envGet (freshActivate.run cwd env).2 "VIRTUAL_ENV_DIR"
      = envGet env "VIRTUAL_ENV_DIR" := by
    rw [hchar1 "VIRTUAL_ENV_DIR",
      if_neg (by decide : ¬("VIRTUAL_ENV_DIR" : String) = "CONDA_DEFAULT_ENV"),
      if_neg (by decide : ¬("VIRTUAL_ENV_DIR" : String) = "CONDA_PREFIX"),
      if_neg (by decide : ¬("VIRTUAL_ENV_DIR" : String) = "CONDA_PREFIX_1"),
      if_neg (by decide : ¬("VIRTUAL_ENV_DIR" : String) = "CONDA_SHLVL"),
      envGet_pathsUpdated_frame _ _ _ (by decide) (by decide)]
  obtain ⟨hchar2, hcpi2⟩ := run_conda_one_char cwd (freshActivate.run cwd env).2
    "2" c (envRoot cwd) hc1 hs1 hcpi1
  have h23 : toString (pyInt ("2" : String) + 1) = "3" := by decide
  have hcp2 : (envGet (freshActivate.run cwd
      (freshActivate.run cwd env).2).2 "CONDA_PREFIX").isSome = true := by
    rw [hchar2 "CONDA_PREFIX",
      if_neg (by decide : ¬("CONDA_PREFIX" : String) = "CONDA_DEFAULT_ENV"),
      if_pos rfl]
    rfl
  have hs2 : envGet (freshActivate.run cwd
      (freshActivate.run cwd env).2).2 "CONDA_SHLVL" = some "3" := by
    rw [hchar2 "CONDA_SHLVL",
      if_neg (by decide : ¬("CONDA_SHLVL" : String) = "CONDA_DEFAULT_ENV"),
      if_neg (by decide : ¬("CONDA_SHLVL" : String) = "CONDA_PREFIX"),
      if_neg (by decide : ¬("CONDA_SHLVL" : String) = "CONDA_PREFIX_1"),
      if_pos rfl, h23]
  have hVE2 : envGet (freshActivate.run cwd
      (freshActivate.run cwd env).2).2 "VIRTUAL_ENV"
      = envGet (freshActivate.run cwd env).2 "VIRTUAL_ENV" := by
    rw [hchar2 "VIRTUAL_ENV",
      if_neg (by decide : ¬("VIRTUAL_ENV" : String) = "CONDA_DEFAULT_ENV"),
      if_neg (by decide : ¬("VIRTUAL_ENV" : String) = "CONDA_PREFIX"),
      if_neg (by decide : ¬("VIRTUAL_ENV" : String) = "CONDA_PREFIX_1"),
      if_neg (by decide : ¬("VIRTUAL_ENV" : String) = "CONDA_SHLVL"),
      if_neg (by decide : ¬("VIRTUAL_ENV" : String) = "CONDA_PREFIX_2"),
      envGet_pathsUpdated_frame _ _ _ (by decide) (by decide)]
  have hVD2 : envGet (freshActivate.run cwd
      (freshActivate.run cwd env).2).2 "VIRTUAL_ENV_DIR"
      = envGet (freshActivate.run cwd env).2 "VIRTUAL_ENV_DIR" := by
    rw [hchar2 "VIRTUAL_ENV_DIR",
      if_neg (by decide : ¬("VIRTUAL_ENV_DIR" : String) = "CONDA_DEFAULT_ENV"),
      if_neg (by decide : ¬("VIRTUAL_ENV_DIR" : String) = "CONDA_PREFIX"),
      if_neg (by decide : ¬("VIRTUAL_ENV_DIR" : String) = "CONDA_PREFIX_1"),
      if_neg (by decide : ¬("VIRTUAL_ENV_DIR" : String) = "CONDA_SHLVL"),
      if_neg (by decide : ¬("VIRTUAL_ENV_DIR" : String) = "CONDA_PREFIX_2"),
      envGet_pathsUpdated_frame _ _ _ (by decide) (by decide)]
  obtain ⟨haex2, hcpi3⟩ := aexit_conda_two
    (freshActivate.run cwd (freshActivate.run cwd env).2).1
    (freshActivate.run cwd (freshActivate.run cwd env).2).2
    x1 y1 "3" (envRoot cwd) c
    (by rw [run_fst]; exact hVE2.symm)
    (by rw [run_fst]; exact hVD2.symm)
    (by rw [run_fst]; exact hx1) (by rw [run_fst]; exact hy1)
    hcp2 hs2 hcpi2 (by decide)
  have h32 : toString (pyInt ("3" : String) - 1) = "2" := by decide
  have hVE3 : envGet ((freshActivate.run cwd
      (freshActivate.run cwd env).2).1.aexit
      (freshActivate.run cwd (freshActivate.run cwd env).2).2) "VIRTUAL_ENV"
      = envGet env "VIRTUAL_ENV" := by
    rw [haex2 "VIRTUAL_ENV",
      if_neg (by decide : ¬("VIRTUAL_ENV" : String) = "CONDA_PREFIX_1"),
      if_neg (by decide : ¬("VIRTUAL_ENV" : String) = "CONDA_PREFIX_2"),
      if_neg (by decide : ¬("VIRTUAL_ENV" : String) = "CONDA_DEFAULT_ENV"),
      if_neg (by decide : ¬("VIRTUAL_ENV" : String) = "CONDA_PREFIX"),
      if_neg (by decide : ¬("VIRTUAL_ENV" : String) = "CONDA_SHLVL"),
      if_neg (by decide : ¬("VIRTUAL_ENV" : String) = "PYTHONPATH"),
      if_neg (by decide : ¬("VIRTUAL_ENV" : String) = "PATH"),
      hVE2, hVE1]
  have hVD3 : envGet ((freshActivate.run cwd
      (freshActivate.run cwd env).2).1.aexit
      (freshActivate.run cwd
        (freshActivate.run cwd env).2).2) "VIRTUAL_ENV_DIR"
      = envGet env "VIRTUAL_ENV_DIR" := by
    rw [haex2 "VIRTUAL_ENV_DIR",
      if_neg (by decide : ¬("VIRTUAL_ENV_DIR" : String) = "CONDA_PREFIX_1"),
      if_neg (by decide : ¬("VIRTUAL_ENV_DIR" : String) = "CONDA_PREFIX_2"),
      if_neg (by decide : ¬("VIRTUAL_ENV_DIR" : String) = "CONDA_DEFAULT_ENV"),
      if_neg (by decide : ¬("VIRTUAL_ENV_DIR" : String) = "CONDA_PREFIX"),
      if_neg (by decide : ¬("VIRTUAL_ENV_DIR" : String) = "CONDA_SHLVL"),
      if_neg (by decide : ¬("VIRTUAL_ENV_DIR" : String) = "PYTHONPATH"),
      if_neg (by decide : ¬("VIRTUAL_ENV_DIR" : String) = "PATH"),
      hVD2, hVD1]
  have hcp3 : (envGet ((freshActivate.run cwd
      (freshActivate.run cwd env).2).1.aexit
      (freshActivate.run cwd
        (freshActivate.run cwd env).2).2) "CONDA_PREFIX").isSome = true := by
    rw [haex2 "CONDA_PREFIX",
      if_neg (by decide : ¬("CONDA_PREFIX" : String) = "CONDA_PREFIX_1"),
      if_neg (by decide : ¬("CONDA_PREFIX" : String) = "CONDA_PREFIX_2"),
      if_neg (by decide : ¬("CONDA_PREFIX" : String) = "CONDA_DEFAULT_ENV"),
      if_pos rfl]
    rfl
  have hs3 : envGet ((freshActivate.run cwd
      (freshActivate.run cwd env).2).1.aexit
      (freshActivate.run cwd
        (freshActivate.run cwd env).2).2) "CONDA_SHLVL" = some "2" := by
    rw [haex2 "CONDA_SHLVL",
      if_neg (by decide : ¬("CONDA_SHLVL" : String) = "CONDA_PREFIX_1"),
      if_neg (by decide : ¬("CONDA_SHLVL" : String) = "CONDA_PREFIX_2"),
      if_neg (by decide : ¬("CONDA_SHLVL" : String) = "CONDA_DEFAULT_ENV"),
      if_neg (by decide : ¬("CONDA_SHLVL" : String) = "CONDA_PREFIX"),
      if_pos rfl, h32]
  have haex3 := aexit_conda_one (freshActivate.run cwd env).1
    ((freshActivate.run cwd (freshActivate.run cwd env).2).1.aexit
      (freshActivate.run cwd (freshActivate.run cwd env).2).2)
    vp vq "2" c
    (by rw [run_fst]; exact hVE3.symm)
    (by rw [run_fst]; exact hVD3.symm)
    (by rw [run_fst]; exact hvp) (by rw [run_fst]; exact hvq)
    hcp3 hs3 hcpi3 (by decide)
  intro k
  show envGet ((freshActivate.run cwd env).1.aexit
    ((freshActivate.run cwd (freshActivate.run cwd env).2).1.aexit
      (freshActivate.run cwd (freshActivate.run cwd env).2).2)) k
    = envGet env k
  rw [haex3 k]
  by_cases h1 : k = "CONDA_DEFAULT_ENV"
  · rw [if_pos h1, h1, hd]
  rw [if_neg h1]
  by_cases h2 : k = "CONDA_PREFIX"
  · rw [if_pos h2, h2, hc]
  rw [if_neg h2]
  by_cases h3 : k = "CONDA_PREFIX_1"
  · rw [if_pos h3, h3,
      ← envGet_condaPrefixItems env "CONDA_PREFIX_1" (by decide), hnop]
    rfl
  rw [if_neg h3]
  by_cases h4 : k = "CONDA_SHLVL"
  · rw [if_pos h4, h4, hs]
    decide
  rw [if_neg h4]
  by_cases h5 : k = "PYTHONPATH"
  · rw [if_pos h5, h5, hvq]
  rw [if_neg h5]
  by_cases h6 : k = "PATH"
  · rw [if_pos h6, h6, hvp]
  rw [if_neg h6]
  rw [haex2 k, if_neg h3]
  by_cases h7 : k = "CONDA_PREFIX_2"
  · rw [if_pos h7, h7,
      ← envGet_condaPrefixItems env "CONDA_PREFIX_2" (by decide), hnop]
    rfl
  rw [if_neg h7, if_neg h1, if_neg h2, if_neg h4, if_neg h5, if_neg h6]
  rw [hchar2 k, if_neg h1, if_neg h2, if_neg h3, if_neg h4, if_neg h7,
    envGet_pathsUpdated_frame _ _ _ h6 h5]
  rw [hchar1 k, if_neg h1, if_neg h2, if_neg h3, if_neg h4,
    envGet_pathsUpdated_frame _ _ _ h6 h5]


/-- **C4 (amended).** Activating a virtual environment and then deactivating
it (and likewise activating twice then deactivating twice, innermost exit
first) restores the process environment pointwise - every variable holds its
pre-activation value again, and a variable absent beforehand is absent
afterwards - for *any* starting environment satisfying the selected
strategy's precondition.  Virtualenv-style (`venvReady`): `VIRTUAL_ENV`,
`VIRTUAL_ENV_DIR`, `PATH` and `PYTHONPATH` are set and `CONDA_PREFIX` is
absent.  Conda-style (`condaReady`): `PATH` and `PYTHONPATH` are set,
`CONDA_SHLVL` is at its canonical base value `"1"` with no indexed
`CONDA_PREFIX_<n>` variable present, and `CONDA_DEFAULT_ENV` equals
`CONDA_PREFIX`.  Each precondition is forced by a conjunct of the
counterexample `activate_roundtrip_not_exact`: a previously-unset
snapshotted variable is leaked, a `CONDA_DEFAULT_ENV` differing from
`CONDA_PREFIX` is overwritten, and a stray indexed prefix variable leaves a
leaked copy one index down. -/
theorem activate_deactivate_restores_ready_env (cwd : String) (env : Env)
    (k : String) :
    (venvReady env →
      envGet (activateRoundtrip cwd env) k = envGet env k ∧
      envGet (activateRoundtripTwice cwd env) k = envGet env k) ∧
    (condaReady env →
      envGet (activateRoundtrip cwd env) k = envGet env k ∧
      envGet (activateRoundtripTwice cwd env) k = envGet env k) := by
  constructor
  · rintro ⟨hv, hw, hp, hq, hnc⟩
    obtain ⟨vv, hvv⟩ := Option.isSome_iff_exists.mp hv
    obtain ⟨vw, hvw⟩ := Option.isSome_iff_exists.mp hw
    obtain ⟨vp, hvp⟩ := Option.isSome_iff_exists.mp hp
    obtain ⟨vq, hvq⟩ := Option.isSome_iff_exists.mp hq
    exact ⟨venv_roundtrip_pointwise cwd env vv vw vp vq hvv hvw hvp hvq hnc k,
      venv_roundtrip_twice_pointwise cwd env vv vw vp vq hvv hvw hvp hvq hnc k⟩
  · rintro ⟨hdc, hcs, hs, hp, hq, hnop⟩
    obtain ⟨c, hc⟩ := Option.isSome_iff_exists.mp hcs
    obtain ⟨vp, hvp⟩ := Option.isSome_iff_exists.mp hp
    obtain ⟨vq, hvq⟩ := Option.isSome_iff_exists.mp hq
    have hd : envGet env "CONDA_DEFAULT_ENV" = some c := hdc.trans hc
    exact ⟨conda_roundtrip_pointwise cwd env c vp vq hc hd hs hvp hvq hnop k,
      conda_roundtrip_twice_pointwise cwd env c vp vq hc hd hs hvp hvq hnop k⟩

/-- Witness for the amended C4 theorem: both roundtrips evaluated on
concrete ready environments of each strategy, checking the restored
`VIRTUAL_ENV` respectively `CONDA_DEFAULT_ENV`. -/
theorem activate_deactivate_restores_ready_env_witness :
    (venvReady (venvPresetEnv "/old/venv" "/old/dir" "/usr/bin" "/lib") ∧
      envGet (activateRoundtrip "/tmp/docs"
          (venvPresetEnv "/old/venv" "/old/dir" "/usr/bin" "/lib"))
          "VIRTUAL_ENV"
        = envGet (venvPresetEnv "/old/venv" "/old/dir" "/usr/bin" "/lib")
          "VIRTUAL_ENV") ∧
    (condaReady (condaPresetEnv "/base" "/usr/bin" "/lib") ∧
      envGet (activateRoundtripTwice "/tmp/docs"
          (condaPresetEnv "/base" "/usr/bin" "/lib")) "CONDA_DEFAULT_ENV"
        = envGet (condaPresetEnv "/base" "/usr/bin" "/lib")
          "CONDA_DEFAULT_ENV") :=
  ⟨⟨by decide,
    ((activate_deactivate_restores_ready_env "/tmp/docs"
        (venvPresetEnv "/old/venv" "/old/dir" "/usr/bin" "/lib")
        "VIRTUAL_ENV").1 (by decide)).1⟩,
   ⟨by decide,
    ((activate_deactivate_restores_ready_env "/tmp/docs"
        (condaPresetEnv "/base" "/usr/bin" "/lib")
        "CONDA_DEFAULT_ENV").2 (by decide)).2⟩⟩

/-!
## Command dispatch (`Consoletest.build_command`, consoletest.py lines 75-84)

```python
def build_command(self, cmd):
    if not cmd:
        raise ValueError("Empty command")
    for command_cls in self.commands:
        command = command_cls.check(cmd)
    return cls.default_command(cmd)
```

Each registered variant's `check` classmethod (commands.py) either builds a
command, returns `None`, or raises.  The loop binds each result to the
local `command` and discards it; the final line reads the name `cls`,
which is not defined anywhere in the enclosing scopes of this instance
method, so reaching it raises `NameError`.
-/

/-- The command objects the variant `check` classmethods can build. -/
inductive BuiltCommand where
  | cd (directory : String)
  | activateVirtualEnv (directory : String)
  | createVirtualEnv (directory : String)
  | pipInstall (cmd : List String)
  | dockerRun (cmd : List String)
  | simpleHTTPServer (cmd : List String)
  | console (cmd : List String)
  deriving DecidableEq, Repr

/-- `CDCommand.check` (commands.py lines 73-76): `cmd[:1] == ["cd"]` builds
`CDCommand(cmd[1])`; reading `cmd[1]` of the one-token vector `["cd"]`
raises `IndexError`. -/
def CDCommand_check (cmd : List String) : Except PyErr (Option BuiltCommand) :=
  if cmd.take 1 = ["cd"] then
    match cmd.get? 1 with
    | some d => .ok (some (.cd d))
    | none => .error .indexError
  else .ok none

/-- `ActivateVirtualEnvCommand.check` (commands.py lines 102-110). -/
def ActivateVirtualEnvCommand.check (cmd : List String) :
    Except PyErr (Option BuiltCommand) :=
  .ok
    (if cmd.contains ".\\.venv\\Scripts\\activate" ∨
        (cmd.length = 2 ∧ (cmd.get? 0 = some "source" ∨ cmd.get? 0 = some ".") ∧
          cmd.get? 1 = some ".venv/bin/activate")
    then some (.activateVirtualEnv ".venv")
    else none)

/-- `CreateVirtualEnvCommand.check` (commands.py lines 358-366):
`-m` immediately followed by `venv`, or a `conda create` prefix, builds
`CreateVirtualEnvCommand(cmd[-1])`; evaluating `cmd[cmd.index("-m") + 1]`
past the end raises `IndexError`. -/
def CreateVirtualEnvCommand_check (cmd : List String) :
    Except PyErr (Option BuiltCommand) := do
  let venvAfterM ←
    if "-m" ∈ cmd ∧ "venv" ∈ cmd then
      match cmd.get? (cmd.findIdx (· == "-m") + 1) with
      | some tok => pure (tok = "venv" : Bool)
      | none => Except.error PyErr.indexError
    else pure false
  if venvAfterM = true ∨ cmd.take 2 = ["conda", "create"] then
    match cmd.getLast? with
    | some d => pure (some (.createVirtualEnv d))
    | none => Except.error PyErr.indexError
  else pure none

/-- `PipInstallCommand.check` (commands.py lines 398-405) together with the
validation in `PipInstallCommand.__init__` (lines 391-396): `install`
immediately after `pip` builds the command, which raises
`PipNotRunAsModule` unless the first two tokens are `python -m` or
`python3 -m`. -/
def PipInstallCommand_check (cmd : List String) :
    Except PyErr (Option BuiltCommand) :=
  if "pip" ∈ cmd ∧ "install" ∈ cmd then
    match cmd.get? (cmd.findIdx (· == "pip") + 1) with
    | none => .error .indexError
    | some tok =>
      if tok = "install" then
        if cmd.take 2 = ["python", "-m"] ∨ cmd.take 2 = ["python3", "-m"] then
          .ok (some (.pipInstall cmd))
        else .error (.pipNotRunAsModule cmd)
      else .ok none
  else .ok none

/-- `DockerRunCommand.check` (commands.py lines 442-445). -/
def DockerRunCommand_check (cmd : List String) :
    Except PyErr (Option BuiltCommand) :=
  .ok (if cmd.take 2 = ["docker", "run"] then some (.dockerRun cmd) else none)

/-- `SimpleHTTPServerCommand.check` (commands.py lines 481-484):
`cmd[1:3] == ["-m", "http.server"]`. -/
def SimpleHTTPServerCommand_check (cmd : List String) :
    Except PyErr (Option BuiltCommand) :=
  .ok (if (cmd.drop 1).take 2 = ["-m", "http.server"] then
    some (.simpleHTTPServer cmd) else none)

/-- `ConsoleCommand.check` (commands.py lines 286-288): always builds. -/
def ConsoleCommand_check (cmd : List String) :
    Except PyErr (Option BuiltCommand) :=
  .ok (some (.console cmd))

/-- The `for command_cls in self.commands` loop of `build_command`: every
`check` result is bound to the local `command` and discarded; a raising
`check` propagates. -/
def runChecks (cmd : List String) :
    List (List String → Except PyErr (Option BuiltCommand)) →
    Except PyErr Unit
  | [] => .ok ()
  | check :: rest => do
    let _ ← check cmd
    runChecks cmd rest

/-- `Consoletest.build_command(cmd)`: the empty-vector guard, the
result-discarding check loop, and the final
`return cls.default_command(cmd)` whose name `cls` is undefined. -/
def build_command
    (commands : List (List String → Except PyErr (Option BuiltCommand)))
    (cmd : List String) : Except PyErr BuiltCommand := do
  if cmd = [] then throw (.valueError "Empty command")
  runChecks cmd commands
  throw (.nameError "cls")

/-- The registered command variants in their registration order, with the
default `ConsoleCommand` removed from the list, as `Consoletest.__init__`
does (the entry-point loading that produces the list is external to the
core). -/
def registeredCommands :
    List (List String → Except PyErr (Option BuiltCommand)) :=
  [CDCommand_check, ActivateVirtualEnvCommand.check,
    CreateVirtualEnvCommand_check, PipInstallCommand_check,
    DockerRunCommand_check, SimpleHTTPServerCommand_check]

lemma build_command_always_nameError (cmd : List String) (hne : ¬cmd = []) :
    ∀ checks : List (List String → Except PyErr (Option BuiltCommand)),
      (∀ c ∈ checks, ∃ r, c cmd = .ok r) →
      build_command checks cmd = .error (.nameError "cls") := by
  have hloop : ∀ checks : List (List String → Except PyErr (Option BuiltCommand)),
      (∀ c ∈ checks, ∃ r, c cmd = .ok r) → runChecks cmd checks = .ok () := by
    intro checks
    induction checks with
    | nil => intro _; rfl
    | cons check rest ih =>
      intro h
      obtain ⟨r, hr⟩ := h check (List.mem_cons_self _ _)
      have hrest := ih (fun c hc => h c (List.mem_cons_of_mem _ hc))
      simp only [runChecks, hr, hrest]
      rfl
  intro checks h
  simp only [build_command, hne, if_false, hloop checks h]
  rfl

/-- **C1 (evidence of the code bug).** On `[".", ".venv/bin/activate"]` the
`ActivateVirtualEnvCommand` matcher recognizes the vector and builds
`ActivateVirtualEnvCommand(".venv")`, yet `build_command` discards every
matcher's result and then executes `return cls.default_command(cmd)`,
where the name `cls` is undefined in the instance method, raising
`NameError` — it returns no command at all (for any registry whose
matchers do not themselves raise).  The repository's own test
`test_build_command_venv_linux` expects `ActivateVirtualEnvCommand(".venv")`
here. -/
theorem build_command_discards_first_match :
    build_command registeredCommands [".", ".venv/bin/activate"] =
        .error (.nameError "cls") ∧
      ActivateVirtualEnvCommand.check [".", ".venv/bin/activate"] =
        .ok (some (.activateVirtualEnv ".venv")) ∧
      ∀ checks : List (List String → Except PyErr (Option BuiltCommand)),
        (∀ c ∈ checks, ∃ r, c [".", ".venv/bin/activate"] = .ok r) →
        build_command checks [".", ".venv/bin/activate"] =
          .error (.nameError "cls") := by
  refine ⟨by decide, by decide, ?_⟩
  exact build_command_always_nameError _ (by decide)

/-- Witness for C1's universally quantified part, at the registered
variant list (each of whose checks returns normally on this vector). -/
theorem build_command_discards_first_match_witness :
    build_command registeredCommands [".", ".venv/bin/activate"] =
      .error (.nameError "cls") :=
  build_command_discards_first_match.2.2 registeredCommands
    (by
      intro c hc
      fin_cases hc
      · exact ⟨none, by decide⟩
      · exact ⟨some (.activateVirtualEnv ".venv"), by decide⟩
      · exact ⟨none, by decide⟩
      · exact ⟨none, by decide⟩
      · exact ⟨none, by decide⟩
      · exact ⟨none, by decide⟩)

/-- A spawn oracle for the C3 scenario: the stage `["a"]` exits with code 1,
every other stage exits with 0. -/
def spawnStageAFails : List String → Env → Int :=
  fun cmd _ => if cmd = ["a"] then 1 else 0

/-- **C3 (evidence of the code bug).** Running the two-stage pipeline
`[["a"], ["b"]]` where stage `["a"]` exits nonzero and stage `["b"]` exits
zero produces exactly one failure string — but it names the *last* stage's
argument vector `['b']`, not the failing stage's own `['a']`: the f-string
in the wait loop reads the loop-leftover variable `cmd` instead of the
recorded `proc.cmd`.  With `ignore_errors=True` the same failure is
swallowed and the call returns normally (that part of the claim holds). -/
theorem run_commands_error_names_last_stage :
    run_commands spawnStageAFails [["a"], ["b"]] [] "/usr/bin/python3" false false =
        .error (.runtimeError ("Failed to run: " ++ pyReprList ["b"])) ∧
      spawnStageAFails ["a"] [] = 1 ∧ spawnStageAFails ["b"] [] = 0 ∧
      run_commands spawnStageAFails [["a"], ["b"]] [] "/usr/bin/python3" true false =
        .ok ([], none) := by
  decide

/-!
## `Consoletest.code_block_to_dict` (consoletest.py lines 107-150)

The directive options of a code block and the per-test configuration.
`parse_commands` belongs to the excluded documentation parser (spec §6)
and the `unicode_escape` codec to the Python standard library; both are
taken as parameters, as is the command builder `self.build_command`
(whose in-repo implementation is analysed separately under the dispatch
section above).
-/

/-- A parsed directive-option dict: option names mapped to their string
values; flag options are present with an ignored value. -/
abbrev Options : Type := List (String × String)

/-- `name in options`. -/
def optContains (options : Options) (name : String) : Bool :=
  envContains options name

/-- `options.get(name, None)`. -/
def optGet (options : Options) (name : String) : Option String :=
  envGet options name

/-- One command object as configured by `code_block_to_dict`: the fields
`ConsoletestCommand.__init__` initializes plus the argument vector and
`stdin` payload. -/
structure CommandSpecObj where
  cmd : List String
  poll_until : Bool := false
  compare_output : Option String := none
  compare_output_imports : Option String := none
  ignore_errors : Bool := false
  daemon : Option String := none
  stdin : Option String := none
  deriving DecidableEq, Repr

/-- The node dict that `code_block_to_dict` returns. -/
inductive CodeBlockNode where
  /-- `consoletest-file`: content, slash-split filepath, overwrite flag. -/
  | file (content : List String) (filepath : List String) (overwrite : Bool)
  /-- `consoletest`: language, configured commands, optional replace text. -/
  | test (language : String) (commands : List CommandSpecObj)
      (replaceText : Option String)
  /-- Neither `filepath` nor `test` was present: the node is returned
  unchanged. -/
  | plain
  deriving DecidableEq, Repr

/-- `s.split("/")`. -/
def pySplitSlash (s : String) : List String :=
  List.map String.mk (splitCharsOn '/' s.data)

/-- `list(map(f, l))` over fallible `f`, stopping at the first exception —
also the shape of a `for` loop whose body may raise. -/
def exceptMapList {α β : Type} (f : α → Except PyErr β) :
    List α → Except PyErr (List β)
  | [] => .ok []
  | a :: rest =>
    match f a with
    | .error e => .error e
    | .ok b =>
      match exceptMapList f rest with
      | .error e => .error e
      | .ok bs => .ok (b :: bs)

/-- The body of the `for command in node["consoletest_commands"]` loop
(consoletest.py lines 130-144): set `poll_until`, `compare_output` and
`compare_output_imports` from the options, raise
`ValueError("Cannot set poll-until without compare-output")` when
`poll_until` is set without a predicate, then set `ignore_errors` and
decode `stdin`. -/
def configureCommand (options : Options) (unicodeEscape : String → String)
    (c : CommandSpecObj) : Except PyErr CommandSpecObj :=
  let c := { c with
    poll_until := optContains options "poll-until"
    compare_output := optGet options "compare-output"
    compare_output_imports := optGet options "compare-output-imports" }
  if c.poll_until = true ∧ c.compare_output = none then
    .error (.valueError "Cannot set poll-until without compare-output")
  else
    let c := { c with ignore_errors := optContains options "ignore-errors" }
    let c :=
      if optContains options "stdin" then
        { c with stdin := some (unicodeEscape ((optGet options "stdin").getD "")) }
      else c
    .ok c

/-- The `if "daemon" in options` tail of the test branch (consoletest.py
lines 146-148): mark the last configured command as the daemon
(`node["consoletest_commands"][-1]` of an empty list raises `IndexError`),
then return the assembled node. -/
def codeBlockDaemon (options : Options) (cmds : List CommandSpecObj) :
    Except PyErr CodeBlockNode :=
  if optContains options "daemon" then
    match cmds.getLast? with
    | some last =>
      .ok (.test "console"
        (cmds.dropLast ++ [{ last with daemon := optGet options "daemon" }])
        (optGet options "replace"))
    | none => .error .indexError
  else .ok (.test "console" cmds (optGet options "replace"))

/-- The configuration loop of the test branch applied to the built
commands, followed by the daemon tail. -/
def codeBlockConfigure (options : Options) (unicodeEscape : String → String)
    (cmds : List CommandSpecObj) : Except PyErr CodeBlockNode :=
  match exceptMapList (configureCommand options unicodeEscape) cmds with
  | .error e => .error e
  | .ok cmds => codeBlockDaemon options cmds

/-- `Consoletest.code_block_to_dict(content, options, node=...)`:
a `filepath` option makes a file node; otherwise a `test` option builds
and configures the commands (the validation above runs here, at build
time) and marks the last command as a daemon when requested; otherwise
the node passes through unchanged. -/
def code_block_to_dict (parseCommands : List String → List (List String))
    (build : List String → Except PyErr CommandSpecObj)
    (unicodeEscape : String → String)
    (content : List String) (options : Options) :
    Except PyErr CodeBlockNode :=
  if optContains options "filepath" then
    .ok (.file content (pySplitSlash ((optGet options "filepath").getD ""))
      (optContains options "overwrite"))
  else if optContains options "test" then
    match exceptMapList build (parseCommands content) with
    | .error e => .error e
    | .ok cmds => codeBlockConfigure options unicodeEscape cmds
  else .ok .plain

lemma exceptMapList_ok_of_forall {α β : Type} (f : α → Except PyErr β) :
    ∀ l : List α, (∀ a ∈ l, ∃ b, f a = .ok b) →
      ∃ res : List β, exceptMapList f l = .ok res ∧ res.length = l.length := by
  intro l
  induction l with
  | nil => intro _; exact ⟨[], rfl, rfl⟩
  | cons a rest ih =>
    intro h
    obtain ⟨b, hb⟩ := h a (List.mem_cons_self _ _)
    obtain ⟨res, hres, hlen⟩ := ih (fun x hx => h x (List.mem_cons_of_mem _ hx))
    exact ⟨b :: res, by simp only [exceptMapList, hb, hres], by simp [hlen]⟩

lemma getLast?_isSome_of_ne_nil {α : Type} :
    ∀ l : List α, l ≠ [] → ∃ a, l.getLast? = some a
  | [], h => absurd rfl h
  | [a], _ => ⟨a, rfl⟩
  | a :: b :: rest, _ => by
    obtain ⟨x, hx⟩ := getLast?_isSome_of_ne_nil (b :: rest) (by simp)
    exact ⟨x, by rw [List.getLast?_cons_cons, hx]⟩

lemma configureCommand_fails_of_poll_no_compare (options : Options)
    (unicodeEscape : String → String) (c : CommandSpecObj)
    (hpoll : optContains options "poll-until" = true)
    (hcmp : optGet options "compare-output" = none) :
    configureCommand options unicodeEscape c =
      .error (.valueError "Cannot set poll-until without compare-output") := by
  unfold configureCommand
  rw [hpoll, hcmp]
  rfl

lemma configureCommand_ok_of_compare (options : Options)
    (unicodeEscape : String → String) (c : CommandSpecObj) (s : String)
    (hcmp : optGet options "compare-output" = some s) :
    ∃ cUpd, configureCommand options unicodeEscape c = .ok cUpd := by
  simp only [configureCommand, hcmp]
  simp only [reduceCtorEq, and_false, if_false]
  exact ⟨_, rfl⟩

/-- **C5.** For every test-marked code block whose commands all build,
configuring with `poll-until` set and no `compare-output` fails at build
time with the configuration error
`ValueError("Cannot set poll-until without compare-output")`, and
configuring with `poll-until` set and a `compare-output` predicate
succeeds.  (The error is raised inside `code_block_to_dict`, before any
command runs.) -/
theorem poll_until_requires_compare_output
    (parseCommands : List String → List (List String))
    (build : List String → Except PyErr CommandSpecObj)
    (unicodeEscape : String → String)
    (content : List String) (options : Options)
    (hfile : optContains options "filepath" = false)
    (htest : optContains options "test" = true)
    (hpoll : optContains options "poll-until" = true)
    (hne : parseCommands content ≠ [])
    (hbuild : ∀ c ∈ parseCommands content, ∃ r, build c = .ok r) :
    (optGet options "compare-output" = none →
      code_block_to_dict parseCommands build unicodeEscape content options =
        .error (.valueError "Cannot set poll-until without compare-output")) ∧
    ∀ s, optGet options "compare-output" = some s →
      ∃ node,
        code_block_to_dict parseCommands build unicodeEscape content options =
          .ok node := by
  obtain ⟨built, hbuilt, hlen⟩ := exceptMapList_ok_of_forall build _ hbuild
  have hbuiltne : built ≠ [] := by
    intro hcontra
    rw [hcontra] at hlen
    exact hne (List.length_eq_zero.mp hlen.symm)
  constructor
  · intro hcmp
    obtain ⟨b0, rest, hb0⟩ : ∃ b0 rest, built = b0 :: rest := by
      rcases built with _ | ⟨b0, rest⟩
      · exact absurd rfl hbuiltne
      · exact ⟨b0, rest, rfl⟩
    rw [hb0] at hbuilt
    have hstep : code_block_to_dict parseCommands build unicodeEscape content
        options = codeBlockConfigure options unicodeEscape (b0 :: rest) := by
      unfold code_block_to_dict
      rw [hfile, htest, hbuilt]
      rfl
    rw [hstep]
    unfold codeBlockConfigure
    rw [show exceptMapList (configureCommand options unicodeEscape) (b0 :: rest) =
        .error (.valueError "Cannot set poll-until without compare-output") by
      unfold exceptMapList
      rw [configureCommand_fails_of_poll_no_compare options unicodeEscape b0
        hpoll hcmp]]
  · intro s hcmp
    have hconf : ∀ c ∈ built, ∃ r,
        configureCommand options unicodeEscape c = .ok r := fun c _ =>
      configureCommand_ok_of_compare options unicodeEscape c s hcmp
    obtain ⟨conf, hconfeq, hconflen⟩ :=
      exceptMapList_ok_of_forall (configureCommand options unicodeEscape) built hconf
    have hconfne : conf ≠ [] := by
      intro hcontra
      rw [hcontra] at hconflen
      exact hbuiltne (List.length_eq_zero.mp hconflen.symm)
    have hstep : code_block_to_dict parseCommands build unicodeEscape content
        options = codeBlockConfigure options unicodeEscape built := by
      unfold code_block_to_dict
      rw [hfile, htest, hbuilt]
      rfl
    have hstep2 : codeBlockConfigure options unicodeEscape built =
        codeBlockDaemon options conf := by
      unfold codeBlockConfigure
      rw [hconfeq]
    rw [hstep, hstep2]
    unfold codeBlockDaemon
    rcases hdaemon : optContains options "daemon" with _ | _
    · exact ⟨_, rfl⟩
    · obtain ⟨last, hlast⟩ := getLast?_isSome_of_ne_nil conf hconfne
      exact ⟨_, by rw [hlast]; rfl⟩

/-- A sample parser, builder and escape decoder for the witness. -/
def sampleParseCommands : List String → List (List String) :=
  fun _ => [["echo", "hi"]]

/-- A builder that always succeeds, standing for a working
`build_command`. -/
def sampleBuild : List String → Except PyErr CommandSpecObj :=
  fun c => .ok { cmd := c }

/-- The identity escape decoder (no escapes in the witness inputs). -/
def sampleUnicodeEscape : String → String := fun s => s

/-- Witness for C5: with `test` and `poll-until` set, omitting
`compare-output` fails with the configuration error, and supplying it
succeeds. -/
theorem poll_until_requires_compare_output_witness :
    (code_block_to_dict sampleParseCommands sampleBuild sampleUnicodeEscape []
        [("test", ""), ("poll-until", "")] =
      .error (.valueError "Cannot set poll-until without compare-output")) ∧
    ∃ node,
      code_block_to_dict sampleParseCommands sampleBuild sampleUnicodeEscape []
        [("test", ""), ("poll-until", ""), ("compare-output", "len(stdout) > 0")] =
        .ok node :=
  ⟨(poll_until_requires_compare_output sampleParseCommands sampleBuild
      sampleUnicodeEscape [] [("test", ""), ("poll-until", "")]
      (by decide) (by decide) (by decide) (by decide)
      (fun c _ => ⟨{ cmd := c }, rfl⟩)).1 (by decide),
    (poll_until_requires_compare_output sampleParseCommands sampleBuild
      sampleUnicodeEscape []
      [("test", ""), ("poll-until", ""), ("compare-output", "len(stdout) > 0")]
      (by decide) (by decide) (by decide) (by decide)
      (fun c _ => ⟨{ cmd := c }, rfl⟩)).2 "len(stdout) > 0" (by decide)⟩

/-!
## The comparison branch of `ConsoleCommand.run` (commands.py lines 309-334)

When `compare_output` is set, each iteration of the `while True` loop
first evaluates `self.ctx["run_commands"]` to invoke the pipeline with
output captured to a buffer.  `ConsoleCommand.__init__` (and the base
`ConsoletestCommand.__init__`) assign `cmd`, `daemon_proc`, `replace`,
`stdin`, `stdin_fileobj`, `stack`, `astack`, `fixups` and the base flags —
never `ctx` — so the attribute lookup raises `AttributeError("ctx")`
before any process is spawned.
-/

/-- One `while True` iteration sequence of the comparison branch,
abstracted over the `self.ctx["run_commands"]` lookup (`getRunCommands`, a
pipeline invoker indexed by invocation count, or the exception the lookup
raises), the sandboxed predicate `call_compare_output` (util.py — outside
the modelled core) and the loop's poll flag.  Counts invocations
performed; `fuel` bounds the otherwise unbounded loop, `none` meaning it
was exhausted. -/
def runCompareLoop (getRunCommands : Except PyErr (Nat → Except PyErr String))
    (callCompareOutput : String → Bool) (cmdText compareText : String)
    (pollUntil : Bool) : Nat → Nat → Option (Except PyErr Unit × Nat)
  | 0, _ => none
  | fuel + 1, count =>
    match getRunCommands with
    | .error e => some (.error e, count)
    | .ok invoke =>
      match invoke count with
      | .error e => some (.error e, count + 1)
      | .ok stdout =>
        if callCompareOutput stdout then some (.ok (), count + 1)
        else if pollUntil = false then
          some (.error (.outputComparisionError
            (cmdText ++ ": " ++ compareText ++ ": " ++ stdout)), count + 1)
        else
          runCompareLoop getRunCommands callCompareOutput cmdText compareText
            pollUntil fuel (count + 1)

/-- The value of `self.ctx["run_commands"]` on a `ConsoleCommand`
instance: no `ctx` attribute is ever assigned, so the lookup raises
`AttributeError("ctx")`. -/
def consoleCommandCtxAttr : Except PyErr (Nat → Except PyErr String) :=
  .error (.attributeError "ctx")

/-- The comparison branch of `ConsoleCommand.run` for a spec with
`compare_output` set: the loop over `runCompareLoop` with the instance's
(missing) `ctx` attribute, the command's `repr` and predicate text. -/
def ConsoleCommand_run_compare (spec : CommandSpecObj)
    (callCompareOutput : String → Bool) (fuel : Nat) :
    Option (Except PyErr Unit × Nat) :=
  runCompareLoop consoleCommandCtxAttr callCompareOutput (pyReprList spec.cmd)
    ((spec.compare_output).getD "") spec.poll_until fuel 0

/-- **C7 (evidence of the code bug).** Running a command with a comparison
predicate and `poll_until = false` performs *zero* pipeline invocations
and raises `AttributeError("ctx")` — not one invocation and an
`OutputComparisionError` — because the branch's first action,
`self.ctx["run_commands"]` (commands.py line 313), reads an attribute that
`ConsoleCommand.__init__` never assigns (the run context is the `ctx`
*parameter* of `run`, not an attribute). -/
theorem console_run_compare_raises_attribute_error (spec : CommandSpecObj)
    (callCompareOutput : String → Bool) (fuel : Nat) (hfuel : 0 < fuel)
    (_hcmp : spec.compare_output ≠ none) (_hpoll : spec.poll_until = false) :
    ConsoleCommand_run_compare spec callCompareOutput fuel =
      some (.error (.attributeError "ctx"), 0) := by
  rcases fuel with _ | fuel
  · exact absurd hfuel (by omega)
  · rfl

/-- Witness for C7, at `["echo", "hi"]` with an always-false predicate. -/
theorem console_run_compare_raises_attribute_error_witness :
    ConsoleCommand_run_compare
        { cmd := ["echo", "hi"], compare_output := some "False" }
        (fun _ => false) 5 =
      some (.error (.attributeError "ctx"), 0) :=
  console_run_compare_raises_attribute_error
    { cmd := ["echo", "hi"], compare_output := some "False" }
    (fun _ => false) 5 (by decide) (by decide) (by decide)

/-!
## `DockerRunCommand` (commands.py lines 434-473)
-/

/-- The state of a `DockerRunCommand` object after `__init__`. -/
structure DockerRunCommandState where
  name : Option String
  needs_removal : Bool
  stopped : Bool
  cmd : List String
  deriving DecidableEq, Repr

/-- A container-runtime invocation issued by `cleanup`. -/
inductive DockerCall where
  | stop (name : String)
  | rm (name : String)
  deriving DecidableEq, Repr

/-- The `for i, arg in enumerate(cmd)` loop of `find_name`: a
`--name=<n>` token or a `--name` token followed by another token sets the
name (the last occurrence wins). -/
def dockerFindNameLoop (cmd : List String) :
    List String → Nat → Option String → Option String
  | [], _, name => name
  | arg :: rest, i, name =>
    let name :=
      if "--name=".data.isPrefixOf arg.data then
        some (String.mk (arg.data.drop "--name=".data.length))
      else if arg = "--name" ∧ i + 1 < cmd.length then
        match cmd.get? (i + 1) with
        | some v => some v
        | none => name
      else name
    dockerFindNameLoop cmd rest (i + 1) name

/-- `DockerRunCommand.find_name(cmd)` (commands.py lines 447-459). -/
def DockerRunCommand_find_name (cmd : List String) :
    Option String × Bool × List String :=
  (dockerFindNameLoop cmd cmd 0 none, !cmd.contains "--rm", cmd)

/-- `DockerRunCommand.__init__(cmd)` (commands.py lines 435-440). -/
def DockerRunCommand_init (cmd : List String) : DockerRunCommandState :=
  let r := DockerRunCommand_find_name cmd
  { name := r.1, needs_removal := r.2.1, stopped := false, cmd := r.2.2 }

/-- `DockerRunCommand.cleanup` (commands.py lines 461-466): when the name
is truthy and the container not yet stopped, issue a stop and — when
`--rm` was absent — a removal; then mark stopped unconditionally.
`__aexit__` (lines 472-473) calls exactly this. -/
def DockerRunCommand_cleanup (st : DockerRunCommandState) :
    DockerRunCommandState × List DockerCall :=
  let calls :=
    match st.name with
    | some n =>
      if n ≠ "" ∧ st.stopped = false then
        DockerCall.stop n :: (if st.needs_removal then [DockerCall.rm n] else [])
      else []
    | none => []
  ({ st with stopped := true }, calls)

/-- **C9.** For `docker run --name foo myimage` (no `--rm`), teardown
issues a stop for `foo` and then a removal for `foo`; with `--rm` present
only the stop is issued; and a second teardown issues nothing (cleanup is
idempotent). -/
theorem docker_cleanup_stop_remove_idempotent :
    ((DockerRunCommand_cleanup
        (DockerRunCommand_init ["docker", "run", "--name", "foo", "myimage"])).2 =
          [DockerCall.stop "foo", DockerCall.rm "foo"] ∧
      (DockerRunCommand_cleanup
        (DockerRunCommand_cleanup
          (DockerRunCommand_init
            ["docker", "run", "--name", "foo", "myimage"])).1).2 = []) ∧
    ((DockerRunCommand_cleanup
        (DockerRunCommand_init
          ["docker", "run", "--rm", "--name", "foo", "myimage"])).2 =
          [DockerCall.stop "foo"] ∧
      (DockerRunCommand_cleanup
        (DockerRunCommand_cleanup
          (DockerRunCommand_init
            ["docker", "run", "--rm", "--name", "foo", "myimage"])).1).2 = []) := by
  decide

end Consoletest

